import Mathlib

/-!
# h3c_exporter: session engine and metrics aggregation

A shallow embedding of `pkg/gnmi/client.go`, `pkg/sdk/sdk.go` and
`metrics/metrics.go`.

* Go maps with string keys are association lists with at most one entry per key.
* `time.Duration` is an `Int` number of nanoseconds; the one addition the code
  performs on durations wraps like Go's `int64`.
* Gauge and counter values are natural numbers: the code only ever stores
  `0.0`, `1.0` and counts of `Inc()` calls.
* Calls that leave the repository (gRPC dial/login/logout, the gNMI stream,
  `json.Unmarshal`, `math/rand`) are answered by an explicit script, so every
  function below is a total, executable function of the script.
-/

namespace H3CExporter

/-! ## Go maps with string keys -/

/-- A Go `map[string]V`: association list, one entry per key. A nil map and an
empty map are both `[]` (the code only ever reads from possibly-nil maps). -/
abbrev GoMap (V : Type) := List (String × V)

/-- The two-valued read `v, exists := m[k]`. -/
def GoMap.lookup {V : Type} : GoMap V → String → Option V
  | [], _ => none
  | (k', v) :: t, k => if k' = k then some v else GoMap.lookup t k

/-- The assignment `m[k] = v`: overwrite in place, or add a new entry. -/
def GoMap.set {V : Type} : GoMap V → String → V → GoMap V
  | [], k, v => [(k, v)]
  | (k', v') :: t, k, v => if k' = k then (k, v) :: t else (k', v') :: GoMap.set t k v

/-- The key set of a map. -/
def GoMap.keys {V : Type} (m : GoMap V) : List String := m.map Prod.fst

/-- Prometheus label map (`prometheus.Labels`, a `map[string]string`). -/
abbrev Labels := GoMap String

/-- Equality of two label maps as maps (same keys, same values), whatever the
order of their entries. -/
def sameLabels (a b : Labels) : Bool :=
  (GoMap.keys a ++ GoMap.keys b).all
    (fun k => decide (GoMap.lookup a k = GoMap.lookup b k))

/-! ## model/model.go -/

/-- The `model.InterfaceState` record. -/
structure InterfaceState where
  Name : String
  AdminStatus : String
  OperStatus : String
deriving DecidableEq, Repr

/-! ## metrics/metrics.go -/

/-- A `prometheus.GaugeVec` / `prometheus.CounterVec`: the label names it was
declared with and one value per label map for which a child exists. A child
is identified by its label map as a map. When the declared extra names are
distinct and differ from the base names (otherwise the registration in `Init`
panics and no write path ever runs), the label maps the write paths build
carry exactly the declared names, so `With` does not fail on them; it is not
modelled as fallible. -/
structure MetricVec where
  variableLabels : List String
  series : List (Labels × Nat)
deriving DecidableEq, Repr

/-- The value of the child for `labels`, if one exists. -/
def MetricVec.value (v : MetricVec) (labels : Labels) : Option Nat :=
  match v.series.find? (fun e => sameLabels e.1 labels) with
  | some e => some e.2
  | none => none

/-- The gauge write `vec.With(labels).Set(x)`. -/
def MetricVec.Set (v : MetricVec) (labels : Labels) (x : Nat) : MetricVec :=
  { v with series := (labels, x) :: v.series.filter (fun e => !sameLabels e.1 labels) }

/-- The counter write `vec.With(labels).Inc()`; a new child starts at 0. -/
def MetricVec.Inc (v : MetricVec) (labels : Labels) : MetricVec :=
  MetricVec.Set v labels ((MetricVec.value v labels).getD 0 + 1)

/-- The read `vec.GetMetricWith(labels)` followed by `getGaugeValue` /
`getCounterValue`: the child is created with value 0 when it does not exist. -/
def MetricVec.GetMetricWith (v : MetricVec) (labels : Labels) : Nat × MetricVec :=
  match MetricVec.value v labels with
  | some x => (x, v)
  | none => (0, { v with series := (labels, 0) :: v.series })

/-- The `updateTask` record sent over the `updates` channel. -/
structure updateTask where
  device : String
  state : InterfaceState
deriving DecidableEq, Repr

/-- The `config.ResolvedSwitch` record. -/
structure ResolvedSwitch where
  SampleInterval : Int
  Address : String
  Port : Nat
  Username : String
  Password : String
  Labels : Labels
deriving DecidableEq, Repr

/-- The `Metrics` singleton (`appMetrics`). The channel `updates` is the list
of tasks sent and not yet received, oldest first. -/
structure Metrics where
  AdminStatus : MetricVec
  OperStatus : MetricVec
  ConnectStatus : MetricVec
  SubscribeStatus : MetricVec
  ErrorCount : MetricVec
  states : GoMap (GoMap InterfaceState)
  deviceLabels : GoMap Labels
  extraLabelNames : List String
  updates : List updateTask
deriving DecidableEq, Repr

/-- `Init`: the five vectors with their declared label names, empty stores. -/
def Init (extraLabelNames : List String) : Metrics :=
  { AdminStatus := ⟨["device", "interface"] ++ extraLabelNames, []⟩
    OperStatus := ⟨["device", "interface"] ++ extraLabelNames, []⟩
    ConnectStatus := ⟨["device"] ++ extraLabelNames, []⟩
    SubscribeStatus := ⟨["device"] ++ extraLabelNames, []⟩
    ErrorCount := ⟨["device", "type"] ++ extraLabelNames, []⟩
    states := []
    deviceLabels := []
    extraLabelNames := extraLabelNames
    updates := [] }

/-- `SetDeviceLabels`: one assignment `deviceLabels[sw.Address] = sw.Labels`
per switch, in order. -/
def SetDeviceLabels (m : Metrics) (switches : List ResolvedSwitch) : Metrics :=
  switches.foldl
    (fun acc sw => { acc with deviceLabels := GoMap.set acc.deviceLabels sw.Address sw.Labels })
    m

/-- `Update`: send the task on the channel. A full channel only delays the
send until the worker has received a task; the delay is not modelled. -/
def Update (m : Metrics) (device : String) (state : InterfaceState) : Metrics :=
  { m with updates := m.updates ++ [⟨device, state⟩] }

/-- The read `deviceLabels := m.deviceLabels[device]` with the nil check that
follows it in every function. -/
def deviceLabelsOf (m : Metrics) (device : String) : Labels :=
  (GoMap.lookup m.deviceLabels device).getD []

/-- The loop `for _, labelName := range extraLabelNames { ... }` that every
function of metrics.go runs over the label map it is building (lines 124-130,
153-159, 177-183, 199-205, 222-228, 243-249). -/
def fillExtraLabels (labels : Labels) (deviceLabels : Labels)
    (extraLabelNames : List String) : Labels :=
  extraLabelNames.foldl
    (fun acc labelName =>
      match GoMap.lookup deviceLabels labelName with
      | some value => GoMap.set acc labelName value
      | none => GoMap.set acc labelName "")
    labels

/-- The map `labels` built by `processUpdates` for one task. -/
def processUpdatesLabels (m : Metrics) (task : updateTask) : Labels :=
  fillExtraLabels [("device", task.device), ("interface", task.state.Name)]
    (deviceLabelsOf m task.device) m.extraLabelNames

/-- The body of the worker loop of `processUpdates`, for one received task. -/
def processTask (m : Metrics) (task : updateTask) : Metrics :=
  let states :=
    match GoMap.lookup m.states task.device with
    | some _ => m.states
    | none => GoMap.set m.states task.device []
  let states :=
    GoMap.set states task.device
      (GoMap.set ((GoMap.lookup states task.device).getD []) task.state.Name task.state)
  let adminStatus := if task.state.AdminStatus = "UP" then 1 else 0
  let operStatus := if task.state.OperStatus = "UP" then 1 else 0
  let labels := processUpdatesLabels m task
  { m with
    states := states
    AdminStatus := MetricVec.Set m.AdminStatus labels adminStatus
    OperStatus := MetricVec.Set m.OperStatus labels operStatus }

/-- `processUpdates`: the worker receives the queued tasks in FIFO order and
applies the loop body to each. -/
def processUpdates (m : Metrics) : Metrics :=
  m.updates.foldl processTask { m with updates := [] }

/-- The map `labels` built by `UpdateConnectStatus`. -/
def connectStatusLabels (m : Metrics) (device : String) : Labels :=
  fillExtraLabels [("device", device)] (deviceLabelsOf m device) m.extraLabelNames

/-- `UpdateConnectStatus`. -/
def UpdateConnectStatus (m : Metrics) (device : String) (connected : Bool) : Metrics :=
  let status := if connected then 1 else 0
  { m with ConnectStatus := MetricVec.Set m.ConnectStatus (connectStatusLabels m device) status }

/-- The map `labels` built by `UpdateSubscribeStatus`. -/
def subscribeStatusLabels (m : Metrics) (device : String) : Labels :=
  fillExtraLabels [("device", device)] (deviceLabelsOf m device) m.extraLabelNames

/-- `UpdateSubscribeStatus`. -/
def UpdateSubscribeStatus (m : Metrics) (device : String) (active : Bool) : Metrics :=
  let status := if active then 1 else 0
  { m with
    SubscribeStatus := MetricVec.Set m.SubscribeStatus (subscribeStatusLabels m device) status }

/-- The map `labels` built by `IncError`. -/
def incErrorLabels (m : Metrics) (device errorType : String) : Labels :=
  fillExtraLabels [("device", device), ("type", errorType)]
    (deviceLabelsOf m device) m.extraLabelNames

/-- `IncError`. -/
def IncError (m : Metrics) (device errorType : String) : Metrics :=
  { m with ErrorCount := MetricVec.Inc m.ErrorCount (incErrorLabels m device errorType) }

/-- The per-device entry of the snapshot returned by `GetSwitchStatus`. -/
structure SwitchData where
  connected : Nat
  subscribed : Nat
  errors : GoMap Nat
deriving DecidableEq, Repr

/-- The map `baseLabels` built by `GetSwitchStatus` for one device. -/
def snapshotBaseLabels (m : Metrics) (device : String) : Labels :=
  fillExtraLabels [("device", device)] (deviceLabelsOf m device) m.extraLabelNames

/-- The map `errLabels` built by `GetSwitchStatus` for one device and type. -/
def snapshotErrLabels (m : Metrics) (device errType : String) : Labels :=
  fillExtraLabels [("device", device), ("type", errType)]
    (deviceLabelsOf m device) m.extraLabelNames

/-- The body of the device loop of `GetSwitchStatus`. -/
def switchStatusOf (m : Metrics) (device : String) : SwitchData × Metrics :=
  let baseLabels := snapshotBaseLabels m device
  let (connected, cs) := MetricVec.GetMetricWith m.ConnectStatus baseLabels
  let (subscribed, ss) := MetricVec.GetMetricWith m.SubscribeStatus baseLabels
  let (errors, ec) :=
    ["connect", "subscribe", "parse", "panic"].foldl
      (fun (acc : GoMap Nat × MetricVec) errType =>
        let (x, ec) := MetricVec.GetMetricWith acc.2 (snapshotErrLabels m device errType)
        (GoMap.set acc.1 errType x, ec))
      (([] : GoMap Nat), m.ErrorCount)
  (⟨connected, subscribed, errors⟩,
    { m with ConnectStatus := cs, SubscribeStatus := ss, ErrorCount := ec })

/-- `GetSwitchStatus`: the snapshot map and the metrics after the reads. -/
def GetSwitchStatus (m : Metrics) (devices : List String) : GoMap SwitchData × Metrics :=
  devices.foldl
    (fun (acc : GoMap SwitchData × Metrics) device =>
      let (data, m') := switchStatusOf acc.2 device
      (GoMap.set acc.1 device data, m'))
    (([] : GoMap SwitchData), m)

/-! ## pkg/gnmi/client.go: backoff -/

/-- `time.Second`, in nanoseconds. -/
def Second : Int := 1000000000

/-- `time.Minute`, in nanoseconds. -/
def Minute : Int := 60 * Second

/-- Two's-complement wrap of an integer into the `int64` range. -/
def wrap64 (x : Int) : Int := (x + 2 ^ 63) % 2 ^ 64 - 2 ^ 63

/-- `rand.Int63n(n)`: panics (`none`) when `n <= 0`, otherwise a number in
`[0, n)`; `r` is the randomness the generator consumed, and every number of
the interval is the result for some `r`. -/
def Int63n (n : Int) (r : Nat) : Option Int :=
  if n ≤ 0 then none else some ((r : Int) % n)

/-- `jitterDelay(base, max)`; `none` is the panic of `rand.Int63n`. -/
def jitterDelay (base max : Int) (r : Nat) : Option Int :=
  match Int63n (Int.tdiv base 2) r with
  | none => none
  | some jitter =>
    let delay := wrap64 (base + jitter)
    if delay > max then some max else some delay

/-- `baseDelay` of `Subscribe`. -/
def baseDelay : Int := 5 * Second

/-- `maxDelay` of `Subscribe`. -/
def maxDelay : Int := 1 * Minute

/-! ## The world a session loop acts on -/

/-- An observable action of one device's session loop, in program order. -/
inductive Event where
  | dial
  | login
  | logout (token : String)
  | connClose
  | openStream
  | send
  | recv
  | sleep (d : Int)
  | incError (errorType : String)
  | connectStatus (connected : Bool)
  | subscribeStatus (active : Bool)
  | update (state : InterfaceState)
deriving DecidableEq, Repr

/-- The `sdk.GrpcSession` handle (connection, client stub and token). -/
structure GrpcSession where
  Token : String
deriving DecidableEq, Repr

/-- What one device's goroutine can change: the metrics singleton, the
sessions it has opened and not yet closed, and the actions it has performed. -/
structure World where
  metrics : Metrics
  sessions : List GrpcSession
  trace : List Event
deriving DecidableEq, Repr

/-- Record actions. -/
def World.emit (w : World) (es : List Event) : World :=
  { w with trace := w.trace ++ es }

/-- The call `metrics.IncError(device, errorType)`. -/
def World.IncError (w : World) (device errorType : String) : World :=
  { w with
    metrics := H3CExporter.IncError w.metrics device errorType
    trace := w.trace ++ [Event.incError errorType] }

/-- The call `metrics.UpdateConnectStatus(device, connected)`. -/
def World.UpdateConnectStatus (w : World) (device : String) (connected : Bool) : World :=
  { w with
    metrics := H3CExporter.UpdateConnectStatus w.metrics device connected
    trace := w.trace ++ [Event.connectStatus connected] }

/-- The call `metrics.UpdateSubscribeStatus(device, active)`. -/
def World.UpdateSubscribeStatus (w : World) (device : String) (active : Bool) : World :=
  { w with
    metrics := H3CExporter.UpdateSubscribeStatus w.metrics device active
    trace := w.trace ++ [Event.subscribeStatus active] }

/-- The call `metrics.Update(device, state)`. -/
def World.Update (w : World) (device : String) (state : InterfaceState) : World :=
  { w with
    metrics := H3CExporter.Update w.metrics device state
    trace := w.trace ++ [Event.update state] }

/-- How a call ended: it returned a value with a nil error, it returned an
error, or a runtime fault (a Go panic) was raised. -/
inductive Result (α : Type) where
  | ok (a : α)
  | error
  | panic
deriving DecidableEq, Repr

/-! ## pkg/sdk/sdk.go -/

/-- The answer of the transport to one `sdk.NewClient` call: the dial fails,
the login fails, the login replies with a token, or a runtime fault is raised
inside the call before any session exists. -/
inductive NewClientScript where
  | dialError
  | loginError
  | ok (token : String)
  | fault
deriving DecidableEq, Repr

/-- `sdk.NewClient`: dial, then log in; a failed login closes the connection;
a successful one yields the session handle. -/
def NewClient (w : World) (s : NewClientScript) : World × Result GrpcSession :=
  match s with
  | .fault => (w.emit [Event.dial], .panic)
  | .dialError => (w.emit [Event.dial], .error)
  | .loginError => (w.emit [Event.dial, Event.login, Event.connClose], .error)
  | .ok token =>
    ({ w with
        sessions := ⟨token⟩ :: w.sessions
        trace := w.trace ++ [Event.dial, Event.login] },
      .ok ⟨token⟩)

/-- `GrpcSession.Close`: logout with the session token, then close the
connection. -/
def GrpcSession.Close (w : World) (s : GrpcSession) : World :=
  { w with
    sessions := w.sessions.erase s
    trace := w.trace ++ [Event.logout s.Token, Event.connClose] }

/-! ## pkg/gnmi/client.go: session loop -/

/-- The `gnmi.TypedValue` of an update, as far as `processResponse` looks at
it: `GetJsonVal()` is non-nil exactly for `JsonVal (some bytes)`. -/
inductive TypedValue where
  | JsonVal (b : Option (List UInt8))
  | other
deriving DecidableEq, Repr

/-- One `gnmi.Update` entry of a notification; `Val` may be nil. -/
structure GnmiUpdate where
  Val : Option TypedValue
deriving DecidableEq, Repr

/-- The `gnmi.Notification` of a data update. -/
structure Notification where
  Update : List GnmiUpdate
deriving DecidableEq, Repr

/-- The `gnmi.SubscribeResponse` message: the three cases of the type switch,
and a message whose `Response` is none of them. The `Update` case holds a
pointer, which may be nil. -/
inductive SubscribeResponse where
  | Update (update : Option Notification)
  | SyncResponse (done : Bool)
  | Error
  | unset
deriving DecidableEq, Repr

/-- The body of the loop over `update.Update` in `processResponse`;
`unmarshal` is `json.Unmarshal` into a `model.InterfaceState` (`none` is a
non-nil error). -/
def processEntry (unmarshal : List UInt8 → Option InterfaceState) (device : String)
    (w : World) (u : GnmiUpdate) : World :=
  match u.Val with
  | some (.JsonVal (some jsonData)) =>
    match unmarshal jsonData with
    | none => w.IncError device "parse"
    | some intfState => w.Update device intfState
  | _ => w

/-- `processResponse`; `none` is the nil dereference `update.Update` on a data
update whose notification pointer is nil. -/
def processResponse (unmarshal : List UInt8 → Option InterfaceState) (w : World)
    (device : String) (resp : SubscribeResponse) : Option World :=
  match resp with
  | .Update none => none
  | .Update (some update) => some (update.Update.foldl (processEntry unmarshal device) w)
  | .SyncResponse _ => some w
  | .Error => some (w.IncError device "subscribe")
  | .unset => some w

/-- `connect`. -/
def connect (sw : ResolvedSwitch) (w : World) (s : NewClientScript) :
    World × Result GrpcSession :=
  match NewClient w s with
  | (w1, .error) =>
    ((w1.IncError sw.Address "connect").UpdateConnectStatus sw.Address false, .error)
  | (w1, .panic) => (w1, .panic)
  | (w1, .ok grpcSession) => (w1.UpdateConnectStatus sw.Address true, .ok grpcSession)

/-- The answer of the gNMI client to `Subscribe(ctx)` or `stream.Send`. -/
inductive CallScript where
  | ok
  | error
  | fault
deriving DecidableEq, Repr

/-- The answer of the stream to one `stream.Recv()` call. -/
inductive RecvScript where
  | msg (resp : SubscribeResponse)
  | error
  | fault
deriving DecidableEq, Repr

/-- Everything outside the repository that one iteration of the loop of
`Subscribe` meets: the answers to its calls, in order, and the randomness of
its backoff draw. Answers the code never asks for are ignored. -/
structure AttemptScript where
  connect : NewClientScript
  openStream : CallScript
  send : CallScript
  recvs : List RecvScript
  draw : Nat
deriving DecidableEq, Repr

/-- How the function literal of one iteration stops running its own
statements: it returns, a runtime fault unwinds it, or it is still blocked in
`stream.Recv()` when the script ends. -/
inductive BodyExit where
  | returned
  | panicked
  | blocked
deriving DecidableEq, Repr

/-- The call `time.Sleep(d)` on the result of `jitterDelay`; when
`jitterDelay` panicked there is no duration and the fault unwinds. -/
def sleepFor (w : World) : Option Int → World × BodyExit
  | none => (w, .panicked)
  | some d => (w.emit [Event.sleep d], .returned)

/-- The statement `time.Sleep(jitterDelay(baseDelay, maxDelay))`. -/
def backoffSleep (w : World) (r : Nat) : World × BodyExit :=
  sleepFor w (jitterDelay baseDelay maxDelay r)

/-- The receive loop (lines 110-119): `returned` stands for the `break`. -/
def recvLoop (unmarshal : List UInt8 → Option InterfaceState) (device : String) :
    World → List RecvScript → World × BodyExit
  | w, [] => (w, .blocked)
  | w, .error :: _ =>
    (((w.emit [Event.recv]).IncError device "subscribe").UpdateSubscribeStatus device false,
      .returned)
  | w, .fault :: _ => (w.emit [Event.recv], .panicked)
  | w, .msg resp :: rest =>
    match processResponse unmarshal (w.emit [Event.recv]) device resp with
    | none => (w.emit [Event.recv], .panicked)
    | some w1 => recvLoop unmarshal device w1 rest

/-- The statements after `defer con.grpcSession.Close()` (lines 66-120). -/
def subscribeBody (unmarshal : List UInt8 → Option InterfaceState) (device : String)
    (w : World) (s : AttemptScript) : World × BodyExit :=
  match s.openStream with
  | .fault => (w.emit [Event.openStream], .panicked)
  | .error =>
    backoffSleep
      (((w.emit [Event.openStream]).IncError device "subscribe").UpdateSubscribeStatus
        device false)
      s.draw
  | .ok =>
    match s.send with
    | .fault => (w.emit [Event.openStream, Event.send], .panicked)
    | .error =>
      backoffSleep
        (((w.emit [Event.openStream, Event.send]).IncError device
          "subscribe").UpdateSubscribeStatus device false)
        s.draw
    | .ok =>
      match recvLoop unmarshal device
          ((w.emit [Event.openStream, Event.send]).UpdateSubscribeStatus device true)
          s.recvs with
      | (w1, .returned) => backoffSleep w1 s.draw
      | (w1, exit) => (w1, exit)

/-- How the body stopped, together with the session whose `Close` it has
deferred by then, if any. -/
def withDeferred (deferred : Option GrpcSession) (r : World × BodyExit) :
    World × BodyExit × Option GrpcSession :=
  (r.1, r.2, deferred)

/-- The statements of the function literal (lines 59-120) without its deferred
calls; the session is the one whose `Close` has been deferred, if any. -/
def attemptBody (unmarshal : List UInt8 → Option InterfaceState) (sw : ResolvedSwitch)
    (w : World) (s : AttemptScript) : World × BodyExit × Option GrpcSession :=
  match connect sw w s.connect with
  | (w1, .panic) => (w1, .panicked, none)
  | (w1, .error) => withDeferred none (backoffSleep w1 s.draw)
  | (w1, .ok grpcSession) =>
    withDeferred (some grpcSession) (subscribeBody unmarshal sw.Address w1 s)

/-- The deferred recovery function (lines 51-57), run when a fault unwinds. -/
def recoverPanic (w : World) (device : String) : World :=
  (w.IncError device "panic").UpdateSubscribeStatus device false

/-- One iteration of the loop of `Subscribe`: the body, then the deferred
calls in reverse order of registration (`Close` of the session, then the
recovery function, which acts only when a fault unwinds). The deferred
`cancel()` of the stream context touches neither metrics nor session and is
left out. The flag tells whether the iteration ended; it has not when the body
is blocked in `Recv`. -/
def attempt (unmarshal : List UInt8 → Option InterfaceState) (sw : ResolvedSwitch)
    (w : World) (s : AttemptScript) : World × Bool :=
  match attemptBody unmarshal sw w s with
  | (w1, .blocked, _) => (w1, false)
  | (w1, exit, deferred) =>
    let w2 := match deferred with
      | some grpcSession => GrpcSession.Close w1 grpcSession
      | none => w1
    match exit with
    | .panicked => (recoverPanic w2 sw.Address, true)
    | _ => (w2, true)

/-- `Subscribe`, run against the scripts of its first iterations. The loop has
no exit: the flag is `true` when every scripted iteration ended, so that the
loop is about to start the next one. -/
def Subscribe (unmarshal : List UInt8 → Option InterfaceState) (sw : ResolvedSwitch) :
    World → List AttemptScript → World × Bool
  | w, [] => (w, true)
  | w, s :: rest =>
    match attempt unmarshal sw w s with
    | (w1, true) => Subscribe unmarshal sw w1 rest
    | (w1, false) => (w1, false)

/-! ## Vocabulary of the statements -/

/-- The interval the backoff delay is said to lie in: `[base, min(max, 1.5*base))`,
with `d < 1.5*base` written over the integers. -/
def inBackoffInterval (base max d : Int) : Prop :=
  base ≤ d ∧ d < max ∧ 2 * d < 3 * base

/-- The value a device has configured for a label name, if any: `none` when
the device has no label entry or its entry lacks the name. -/
def configuredValue (m : Metrics) (device labelName : String) : Option String :=
  (GoMap.lookup m.deviceLabels device).bind
    (fun deviceLabels => GoMap.lookup deviceLabels labelName)

/-- The label resolution rule for a label map `labels` built for `device` on a
sink with base label names `base`: every declared extra name is a key, mapped
to the configured value or else to the empty string, and the keys are exactly
the base names and the declared names. -/
def resolvesLabels (m : Metrics) (device : String) (base : List String) (labels : Labels) :
    Prop :=
  (∀ labelName ∈ m.extraLabelNames,
    GoMap.lookup labels labelName = some ((configuredValue m device labelName).getD "")) ∧
  (∀ k, k ∈ GoMap.keys labels ↔ k ∈ base ∨ k ∈ m.extraLabelNames)

/-- The value of the error counter of a device and error type, 0 when the
series does not exist yet (what the snapshot reports). -/
def errorCount (m : Metrics) (device errorType : String) : Nat :=
  (MetricVec.value m.ErrorCount (incErrorLabels m device errorType)).getD 0

/-- The connect-status gauge of a device, if it has been set. -/
def connectGauge (m : Metrics) (device : String) : Option Nat :=
  MetricVec.value m.ConnectStatus (connectStatusLabels m device)

/-- The subscribe-status gauge of a device, if it has been set. -/
def subscribeGauge (m : Metrics) (device : String) : Option Nat :=
  MetricVec.value m.SubscribeStatus (subscribeStatusLabels m device)

/-- The JSON payload of an entry: present when `Val` and `GetJsonVal()` are
both non-nil. -/
def jsonPayload (u : GnmiUpdate) : Option (List UInt8) :=
  match u.Val with
  | some (.JsonVal (some jsonData)) => some jsonData
  | _ => none

/-- The one metrics call a JSON payload leads to: `Update` with the decoded
state, or `IncError` with type "parse". -/
def entryEvent (unmarshal : List UInt8 → Option InterfaceState) (jsonData : List UInt8) :
    Event :=
  match unmarshal jsonData with
  | none => Event.incError "parse"
  | some intfState => Event.update intfState

/-- Actions of the receive loop that leave sessions and gauges alone. -/
def Event.isData : Event → Bool
  | .recv => true
  | .update _ => true
  | .incError errorType => decide (errorType = "parse" ∨ errorType = "subscribe")
  | _ => false

/-- The second world differs from the first by data actions only: same open
sessions, same status gauges, same label configuration, and a trace extended
by data actions. -/
def dataOnly (w w1 : World) : Prop :=
  w1.sessions = w.sessions ∧
  w1.metrics.SubscribeStatus = w.metrics.SubscribeStatus ∧
  w1.metrics.ConnectStatus = w.metrics.ConnectStatus ∧
  w1.metrics.deviceLabels = w.metrics.deviceLabels ∧
  w1.metrics.extraLabelNames = w.metrics.extraLabelNames ∧
  ∃ delta, w1.trace = w.trace ++ delta ∧ ∀ e ∈ delta, Event.isData e = true

/-- Actions of the subscribe phase of an attempt: opening the stream, sending
the request, setting the subscribe status, and data actions. None of them is
a dial, a sleep, a logout, a connection close or an `IncError "panic"`. -/
def Event.isStream : Event → Bool
  | .openStream => true
  | .send => true
  | .subscribeStatus _ => true
  | e => Event.isData e

/-- The two actions of `GrpcSession.Close` (and of a failed login). -/
def Event.isRelease : Event → Bool
  | .logout _ => true
  | .connClose => true
  | _ => false

/-- The second world differs from the first by actions of the subscribe phase
only: same open sessions, same label configuration, and a trace extended by
such actions. -/
def streamOnly (w w1 : World) : Prop :=
  w1.sessions = w.sessions ∧
  w1.metrics.deviceLabels = w.metrics.deviceLabels ∧
  w1.metrics.extraLabelNames = w.metrics.extraLabelNames ∧
  ∃ delta, w1.trace = w.trace ++ delta ∧ ∀ e ∈ delta, Event.isStream e = true

/-- A world with no recorded activity: no status or error series exists, no
session is open, nothing has been done. -/
def noActivity (w : World) : Prop :=
  w.metrics.ConnectStatus.series = [] ∧ w.metrics.SubscribeStatus.series = [] ∧
  w.metrics.ErrorCount.series = [] ∧ w.sessions = [] ∧ w.trace = []

/-- The actions of an attempt that fails at connect. -/
def Event.isConnectFailure : Event → Bool
  | .dial => true
  | .login => true
  | .connClose => true
  | .incError errorType => decide (errorType = "connect")
  | .connectStatus connected => !connected
  | .sleep _ => true
  | _ => false

/-- The world in which the receive loop of an attempt starts: logged in with
`token`, connect status set, stream opened, request sent, subscribe status
set to 1. -/
def streamStart (sw : ResolvedSwitch) (w : World) (token : String) : World :=
  ((connect sw w (.ok token)).1.emit [Event.openStream, Event.send]).UpdateSubscribeStatus
    sw.Address true

/-! ## A concrete scenario -/

/-- The device "10.0.0.1", configured with the extra label `site=dc1`. -/
def exampleSwitch : ResolvedSwitch :=
  { SampleInterval := 10, Address := "10.0.0.1", Port := 50051, Username := "admin",
    Password := "secret", Labels := [("site", "dc1")] }

/-- The world after `Init` with the declared label `site` and
`SetDeviceLabels` with the example device: nothing recorded yet. -/
def exampleWorld : World :=
  { metrics := SetDeviceLabels (Init ["site"]) [exampleSwitch], sessions := [], trace := [] }

/-- A decoder for the scenario: the empty payload fails to decode, every other
payload decodes to `{eth1, UP, DOWN}`. -/
def exampleUnmarshal (jsonData : List UInt8) : Option InterfaceState :=
  if jsonData = [] then none else some ⟨"eth1", "UP", "DOWN"⟩

/-- A script whose attempt logs in with the given token, opens the stream,
sends the request and then meets the given receives. -/
def streamingScript (token : String) (recvs : List RecvScript) (draw : Nat) : AttemptScript :=
  { connect := .ok token, openStream := .ok, send := .ok, recvs := recvs, draw := draw }

/-- The stored state of a (device, interface) pair: the entry of
`states[device][interfaceName]`, if both maps have one. -/
def storedState (m : Metrics) (device interfaceName : String) : Option InterfaceState :=
  (GoMap.lookup m.states device).bind
    (fun interfaces => GoMap.lookup interfaces interfaceName)

/-! # Properties -/

/-! ## Go maps -/

theorem GoMap.lookup_set {V : Type} (m : GoMap V) (k : String) (v : V) (k' : String) :
    GoMap.lookup (GoMap.set m k v) k' = if k = k' then some v else GoMap.lookup m k' := by
  induction m with
  | nil => simp [GoMap.set, GoMap.lookup]
  | cons p t ih =>
    obtain ⟨a, b⟩ := p
    by_cases h : a = k
    · subst h
      by_cases h2 : a = k' <;> simp [GoMap.set, GoMap.lookup, h2]
    · by_cases h2 : a = k'
      · subst h2
        have h3 : ¬ k = a := fun e => h e.symm
        simp [GoMap.set, GoMap.lookup, h, h3]
      · simp [GoMap.set, GoMap.lookup, h, h2, ih]

theorem GoMap.mem_keys_set {V : Type} (m : GoMap V) (k : String) (v : V) (k' : String) :
    k' ∈ GoMap.keys (GoMap.set m k v) ↔ k' = k ∨ k' ∈ GoMap.keys m := by
  induction m with
  | nil => simp [GoMap.set, GoMap.keys]
  | cons p t ih =>
    obtain ⟨a, b⟩ := p
    by_cases h : a = k
    · subst h
      simp [GoMap.set, GoMap.keys]
    · simp only [GoMap.keys] at ih
      simp [GoMap.set, GoMap.keys, h, ih]
      tauto

theorem sameLabels_refl (a : Labels) : sameLabels a a = true := by
  simp [sameLabels]

/-- The value the loop over the declared names leaves under a key. -/
theorem fillExtraLabels_lookup (deviceLabels : Labels) (names : List String) (labels : Labels)
    (k : String) :
    GoMap.lookup (fillExtraLabels labels deviceLabels names) k =
      if k ∈ names then some ((GoMap.lookup deviceLabels k).getD "")
      else GoMap.lookup labels k := by
  induction names generalizing labels with
  | nil => simp [fillExtraLabels]
  | cons n ns ih =>
    have step : fillExtraLabels labels deviceLabels (n :: ns) =
        fillExtraLabels (GoMap.set labels n ((GoMap.lookup deviceLabels n).getD ""))
          deviceLabels ns := by
      simp only [fillExtraLabels, List.foldl_cons]
      cases GoMap.lookup deviceLabels n <;> rfl
    rw [step, ih]
    by_cases h1 : k ∈ ns
    · simp [h1]
    · by_cases h2 : k = n
      · subst h2
        simp [h1, GoMap.lookup_set]
      · have h3 : ¬ n = k := fun e => h2 e.symm
        simp [h1, h2, h3, GoMap.lookup_set]

theorem fillExtraLabels_keys (deviceLabels : Labels) (names : List String) (labels : Labels)
    (k : String) :
    k ∈ GoMap.keys (fillExtraLabels labels deviceLabels names) ↔
      k ∈ GoMap.keys labels ∨ k ∈ names := by
  induction names generalizing labels with
  | nil => simp [fillExtraLabels]
  | cons n ns ih =>
    have step : fillExtraLabels labels deviceLabels (n :: ns) =
        fillExtraLabels (GoMap.set labels n ((GoMap.lookup deviceLabels n).getD ""))
          deviceLabels ns := by
      simp only [fillExtraLabels, List.foldl_cons]
      cases GoMap.lookup deviceLabels n <;> rfl
    rw [step, ih, GoMap.mem_keys_set]
    simp only [List.mem_cons]
    tauto

/-! ## Backoff delay -/

/-- What `jitterDelay` computes when the draw does not panic and the sum does
not leave the `int64` range. -/
theorem jitterDelay_eq_min (base max : Int) (r : Nat) (hbase : 2 ≤ base)
    (hfit : base + base / 2 < 2 ^ 63) :
    ∃ j d, 0 ≤ j ∧ 2 * j < base ∧ jitterDelay base max r = some d ∧ d = min (base + j) max ∧
      min base max ≤ d ∧ d ≤ max ∧ 2 * d < 3 * base ∧
      (base + base / 2 ≤ max → inBackoffInterval base max d) := by
  have hdiv : Int.tdiv base 2 = base / 2 := Int.tdiv_eq_ediv (by omega) (by omega)
  have hn : 0 < base / 2 := by omega
  have hj0 : 0 ≤ (r : Int) % (base / 2) := Int.emod_nonneg _ (by omega)
  have hj1 : (r : Int) % (base / 2) < base / 2 := Int.emod_lt_of_pos _ hn
  refine ⟨(r : Int) % (base / 2), min (base + (r : Int) % (base / 2)) max, hj0, by omega, ?_, rfl, ?_⟩
  · have hw : wrap64 (base + (r : Int) % (base / 2)) = base + (r : Int) % (base / 2) := by
      unfold wrap64
      rw [Int.emod_eq_of_lt (by omega) (by omega)]
      omega
    simp only [jitterDelay, Int63n, hdiv, if_neg (not_le.mpr hn), hw]
    by_cases h : base + (r : Int) % (base / 2) > max
    · simp [h]; omega
    · simp [h]; omega
  · unfold inBackoffInterval
    omega

/-- The delay `Subscribe` sleeps: never a panic, always in `[5 s, 7.5 s)`. -/
theorem backoff_delay (r : Nat) :
    ∃ d, jitterDelay baseDelay maxDelay r = some d ∧ inBackoffInterval baseDelay maxDelay d := by
  obtain ⟨j, d, -, -, hd, -, -, -, -, hin⟩ :=
    jitterDelay_eq_min baseDelay maxDelay r (by decide) (by decide)
  exact ⟨d, hd, hin (by decide)⟩

/-- C1 (amended). For a base delay of at least 2 ns whose one-and-a-half-fold
fits `int64`, every maximum and every random draw, `jitterDelay` returns
`d = min (base + j) max` for a jitter `0 ≤ j < base / 2`; so
`min base max ≤ d ≤ max` and `d < 1.5 * base`, and `d` lies in
`[base, min(max, 1.5*base))` whenever `base + base / 2 ≤ max`, as for the
5 s and 60 s of `Subscribe`. -/
theorem jitterDelay_bounds (base max : Int) (r : Nat) (hbase : 2 ≤ base)
    (hfit : base + base / 2 < 2 ^ 63) :
    ∃ j d, 0 ≤ j ∧ 2 * j < base ∧ jitterDelay base max r = some d ∧ d = min (base + j) max ∧
      min base max ≤ d ∧ d ≤ max ∧ 2 * d < 3 * base ∧
      (base + base / 2 ≤ max → inBackoffInterval base max d) :=
  jitterDelay_eq_min base max r hbase hfit

/-- C1, witness: the 5 s and 60 s of `Subscribe` with the draw 12345678901. -/
theorem jitterDelay_bounds_witness :
    (2 ≤ baseDelay ∧ baseDelay + baseDelay / 2 < 2 ^ 63) ∧
    ∃ j d, 0 ≤ j ∧ 2 * j < baseDelay ∧ jitterDelay baseDelay maxDelay 12345678901 = some d ∧
      d = min (baseDelay + j) maxDelay ∧ min baseDelay maxDelay ≤ d ∧ d ≤ maxDelay ∧
      2 * d < 3 * baseDelay ∧
      (baseDelay + baseDelay / 2 ≤ maxDelay → inBackoffInterval baseDelay maxDelay d) :=
  ⟨⟨by decide, by decide⟩, jitterDelay_bounds baseDelay maxDelay 12345678901 (by decide) (by decide)⟩

/-- C1, counterexample. With base 5 s and maximum 1 s the delay is 1 s, below
the base; with base 4 ns and maximum 4 ns it is the maximum itself, not below
it; with base 1 ns the draw panics and no delay is returned; with base 7e18 ns
the sum wraps and the delay is negative. In none of the four cases is a delay
of `[base, min(max, 1.5*base))` returned. -/
theorem jitterDelay_bounds_counterexample :
    (¬ ∃ d, jitterDelay (5 * Second) (1 * Second) 0 = some d ∧
        inBackoffInterval (5 * Second) (1 * Second) d) ∧
    (¬ ∃ d, jitterDelay 4 4 1 = some d ∧ inBackoffInterval 4 4 d) ∧
    (¬ ∃ d, jitterDelay 1 Minute 0 = some d ∧ inBackoffInterval 1 Minute d) ∧
    (¬ ∃ d, jitterDelay 7000000000000000000 (2 ^ 63 - 1) 3000000000000000000 = some d ∧
        inBackoffInterval 7000000000000000000 (2 ^ 63 - 1) d) := by
  have h1 : jitterDelay (5 * Second) (1 * Second) 0 = some 1000000000 := by decide
  have h2 : jitterDelay 4 4 1 = some 4 := by decide
  have h3 : jitterDelay 1 Minute 0 = none := by decide
  have h4 : jitterDelay 7000000000000000000 (2 ^ 63 - 1) 3000000000000000000 =
      some (-8446744073709551616) := by decide
  refine ⟨?_, ?_, ?_, ?_⟩
  · rintro ⟨d, hd, hb, -, -⟩
    rw [h1] at hd
    cases hd
    revert hb
    decide
  · rintro ⟨d, hd, -, hb, -⟩
    rw [h2] at hd
    cases hd
    revert hb
    decide
  · rintro ⟨d, hd, -⟩
    rw [h3] at hd
    cases hd
  · rintro ⟨d, hd, hb, -, -⟩
    rw [h4] at hd
    cases hd
    revert hb
    decide

/-! ## Label resolution -/

/-- The rule holds for every map the loop over the declared names completes. -/
theorem resolvesLabels_fill (m : Metrics) (device : String) (start : Labels) :
    resolvesLabels m device (GoMap.keys start)
      (fillExtraLabels start (deviceLabelsOf m device) m.extraLabelNames) := by
  constructor
  · intro labelName hmem
    rw [fillExtraLabels_lookup, if_pos hmem]
    unfold configuredValue deviceLabelsOf
    cases GoMap.lookup m.deviceLabels device <;> simp [GoMap.lookup]
  · intro k
    exact fillExtraLabels_keys _ _ _ k

/-- C2. The label maps built by `processUpdates`, `UpdateConnectStatus`,
`UpdateSubscribeStatus`, `IncError` and (twice) by `GetSwitchStatus` hold
every declared extra label name, mapped to the value the device has configured
for it, or to the empty string when the device has none or has no label entry
at all; their keys are exactly the base label names of the sink and the
declared names, hence the same keys for any two devices. -/
theorem label_maps_resolved (m : Metrics) (device : String) (state : InterfaceState)
    (errorType : String) :
    (resolvesLabels m device ["device", "interface"] (processUpdatesLabels m ⟨device, state⟩) ∧
      resolvesLabels m device ["device"] (connectStatusLabels m device) ∧
      resolvesLabels m device ["device"] (subscribeStatusLabels m device) ∧
      resolvesLabels m device ["device", "type"] (incErrorLabels m device errorType) ∧
      resolvesLabels m device ["device"] (snapshotBaseLabels m device) ∧
      resolvesLabels m device ["device", "type"] (snapshotErrLabels m device errorType)) ∧
    (∀ (other : String) (otherState : InterfaceState) (k : String),
      (k ∈ GoMap.keys (processUpdatesLabels m ⟨device, state⟩) ↔
        k ∈ GoMap.keys (processUpdatesLabels m ⟨other, otherState⟩)) ∧
      (k ∈ GoMap.keys (connectStatusLabels m device) ↔
        k ∈ GoMap.keys (connectStatusLabels m other)) ∧
      (k ∈ GoMap.keys (subscribeStatusLabels m device) ↔
        k ∈ GoMap.keys (subscribeStatusLabels m other)) ∧
      (k ∈ GoMap.keys (incErrorLabels m device errorType) ↔
        k ∈ GoMap.keys (incErrorLabels m other errorType)) ∧
      (k ∈ GoMap.keys (snapshotBaseLabels m device) ↔
        k ∈ GoMap.keys (snapshotBaseLabels m other)) ∧
      (k ∈ GoMap.keys (snapshotErrLabels m device errorType) ↔
        k ∈ GoMap.keys (snapshotErrLabels m other errorType))) := by
  refine ⟨⟨resolvesLabels_fill m device _, resolvesLabels_fill m device _,
    resolvesLabels_fill m device _, resolvesLabels_fill m device _,
    resolvesLabels_fill m device _, resolvesLabels_fill m device _⟩, ?_⟩
  intro other otherState k
  simp only [processUpdatesLabels, connectStatusLabels, subscribeStatusLabels, incErrorLabels,
    snapshotBaseLabels, snapshotErrLabels, fillExtraLabels_keys]
  simp [GoMap.keys]

/-! ## Metric vectors -/

theorem MetricVec.value_Set (v : MetricVec) (labels : Labels) (x : Nat) :
    MetricVec.value (MetricVec.Set v labels x) labels = some x := by
  simp [MetricVec.value, MetricVec.Set, sameLabels_refl]

theorem MetricVec.value_Inc (v : MetricVec) (labels : Labels) :
    MetricVec.value (MetricVec.Inc v labels) labels =
      some ((MetricVec.value v labels).getD 0 + 1) := by
  simp [MetricVec.Inc, MetricVec.value_Set]

theorem errorCount_IncError (m : Metrics) (device errorType : String) :
    errorCount (IncError m device errorType) device errorType =
      errorCount m device errorType + 1 := by
  have h : incErrorLabels (IncError m device errorType) device errorType =
      incErrorLabels m device errorType := rfl
  simp only [errorCount, h]
  simp [IncError, MetricVec.value_Inc]

theorem errorCount_Update (m : Metrics) (device errorType : String) (st : InterfaceState) :
    errorCount (Update m device st) device errorType = errorCount m device errorType := rfl

/-! ## Decoding a data update -/

theorem processEntry_eq (unmarshal : List UInt8 → Option InterfaceState) (device : String)
    (w : World) (u : GnmiUpdate) :
    processEntry unmarshal device w u =
      match jsonPayload u with
      | none => w
      | some jsonData =>
        match unmarshal jsonData with
        | none => w.IncError device "parse"
        | some intfState => w.Update device intfState := by
  rcases u with ⟨_ | ⟨_ | b⟩ | _⟩ <;> rfl

theorem dataOnly_refl (w : World) : dataOnly w w :=
  ⟨rfl, rfl, rfl, rfl, rfl, [], by simp, by simp⟩

theorem dataOnly_trans {a b c : World} (h1 : dataOnly a b) (h2 : dataOnly b c) :
    dataOnly a c := by
  obtain ⟨s1, u1, c1, l1, n1, d1, t1, p1⟩ := h1
  obtain ⟨s2, u2, c2, l2, n2, d2, t2, p2⟩ := h2
  refine ⟨s2.trans s1, u2.trans u1, c2.trans c1, l2.trans l1, n2.trans n1, d1 ++ d2, ?_, ?_⟩
  · rw [t2, t1, List.append_assoc]
  · intro e he
    rcases List.mem_append.mp he with h | h
    · exact p1 e h
    · exact p2 e h

theorem dataOnly_recv (w : World) : dataOnly w (w.emit [Event.recv]) :=
  ⟨rfl, rfl, rfl, rfl, rfl, [Event.recv], rfl, by simp [Event.isData]⟩

theorem dataOnly_parse (w : World) (device : String) :
    dataOnly w (w.IncError device "parse") :=
  ⟨rfl, rfl, rfl, rfl, rfl, [Event.incError "parse"], rfl, by simp [Event.isData]⟩

theorem dataOnly_subscribe (w : World) (device : String) :
    dataOnly w (w.IncError device "subscribe") :=
  ⟨rfl, rfl, rfl, rfl, rfl, [Event.incError "subscribe"], rfl, by simp [Event.isData]⟩

theorem dataOnly_Update (w : World) (device : String) (st : InterfaceState) :
    dataOnly w (w.Update device st) :=
  ⟨rfl, rfl, rfl, rfl, rfl, [Event.update st], rfl, by simp [Event.isData]⟩

theorem dataOnly_processEntry (unmarshal : List UInt8 → Option InterfaceState)
    (device : String) (w : World) (u : GnmiUpdate) :
    dataOnly w (processEntry unmarshal device w u) := by
  have e := processEntry_eq unmarshal device w u
  cases hp : jsonPayload u with
  | none =>
    rw [hp] at e
    rw [e]
    exact dataOnly_refl w
  | some b =>
    rw [hp] at e
    cases hu : unmarshal b with
    | none =>
      simp only [hu] at e
      rw [e]
      exact dataOnly_parse w device
    | some st =>
      simp only [hu] at e
      rw [e]
      exact dataOnly_Update w device st

theorem dataOnly_processEntries (unmarshal : List UInt8 → Option InterfaceState)
    (device : String) (entries : List GnmiUpdate) (w : World) :
    dataOnly w (entries.foldl (processEntry unmarshal device) w) := by
  induction entries generalizing w with
  | nil => exact dataOnly_refl w
  | cons u us ih =>
    exact dataOnly_trans (dataOnly_processEntry unmarshal device w u) (ih _)

theorem dataOnly_processResponse (unmarshal : List UInt8 → Option InterfaceState)
    (device : String) (w w1 : World) (resp : SubscribeResponse)
    (h : processResponse unmarshal w device resp = some w1) : dataOnly w w1 := by
  cases resp with
  | Update update =>
    cases update with
    | none => simp [processResponse] at h
    | some n =>
      simp only [processResponse, Option.some.injEq] at h
      subst h
      exact dataOnly_processEntries unmarshal device _ w
  | SyncResponse done =>
    simp only [processResponse, Option.some.injEq] at h
    subst h
    exact dataOnly_refl w
  | Error =>
    simp only [processResponse, Option.some.injEq] at h
    subst h
    exact dataOnly_subscribe w device
  | unset =>
    simp only [processResponse, Option.some.injEq] at h
    subst h
    exact dataOnly_refl w

/-- What the loop over the entries of a data update does to the queue, to
the "parse" counter and to the trace. -/
theorem processEntries_effect (unmarshal : List UInt8 → Option InterfaceState)
    (device : String) (entries : List GnmiUpdate) (w : World) :
    (entries.foldl (processEntry unmarshal device) w).metrics.updates =
        w.metrics.updates ++
          ((entries.filterMap jsonPayload).filterMap unmarshal).map (updateTask.mk device) ∧
    errorCount (entries.foldl (processEntry unmarshal device) w).metrics device "parse" =
        errorCount w.metrics device "parse" +
          ((entries.filterMap jsonPayload).filter (fun b => (unmarshal b).isNone)).length ∧
    (entries.foldl (processEntry unmarshal device) w).trace =
        w.trace ++ (entries.filterMap jsonPayload).map (entryEvent unmarshal) := by
  induction entries generalizing w with
  | nil => simp
  | cons u us ih =>
    rw [List.foldl_cons]
    have e := processEntry_eq unmarshal device w u
    cases hp : jsonPayload u with
    | none =>
      rw [hp] at e
      rw [e]
      simpa [hp] using ih w
    | some b =>
      rw [hp] at e
      cases hu : unmarshal b with
      | none =>
        simp only [hu] at e
        rw [e]
        obtain ⟨h1, h2, h3⟩ := ih (w.IncError device "parse")
        have hm : (w.IncError device "parse").metrics = IncError w.metrics device "parse" := rfl
        refine ⟨?_, ?_, ?_⟩
        · rw [h1]
          simp [hp, hu, hm, IncError]
        · rw [h2, hm, errorCount_IncError]
          simp [hp, hu]
          omega
        · rw [h3]
          simp [hp, hu, entryEvent, World.IncError]
      | some st =>
        simp only [hu] at e
        rw [e]
        obtain ⟨h1, h2, h3⟩ := ih (w.Update device st)
        have hm : (w.Update device st).metrics = Update w.metrics device st := rfl
        refine ⟨?_, ?_, ?_⟩
        · rw [h1]
          simp [hp, hu, hm, Update]
        · rw [h2, hm, errorCount_Update]
          simp [hp, hu]
        · rw [h3]
          simp [hp, hu, entryEvent, World.Update]

theorem filterMap_length_add_failed {α β : Type} (f : α → Option β) (l : List α) :
    (l.filterMap f).length + (l.filter (fun a => (f a).isNone)).length = l.length := by
  induction l with
  | nil => simp
  | cons a t ih =>
    cases h : f a <;> simp [List.filterMap_cons, List.filter_cons, h] <;> omega

/-- C3. For a data update whose entries carry the JSON payloads `payloads`
(entries without a JSON value are skipped), of which `k` fail to decode,
`processResponse` returns normally, appends to the update queue exactly the
decoded states of the payloads that decode, in their original order, so
`N - k` of them, and raises the "parse" error counter of the device by `k`;
the calls it makes are, payload by payload, one `Update` or one
`IncError "parse"`, so a failed payload stops nothing after it. -/
theorem processResponse_tolerates_failures (unmarshal : List UInt8 → Option InterfaceState)
    (w : World) (device : String) (entries : List GnmiUpdate) :
    ∃ w1, processResponse unmarshal w device (.Update (some ⟨entries⟩)) = some w1 ∧
      w1.metrics.updates = w.metrics.updates ++
        ((entries.filterMap jsonPayload).filterMap unmarshal).map (updateTask.mk device) ∧
      ((entries.filterMap jsonPayload).filterMap unmarshal).length +
          ((entries.filterMap jsonPayload).filter (fun b => (unmarshal b).isNone)).length =
        (entries.filterMap jsonPayload).length ∧
      errorCount w1.metrics device "parse" = errorCount w.metrics device "parse" +
        ((entries.filterMap jsonPayload).filter (fun b => (unmarshal b).isNone)).length ∧
      w1.trace = w.trace ++ (entries.filterMap jsonPayload).map (entryEvent unmarshal) := by
  obtain ⟨h1, h2, h3⟩ := processEntries_effect unmarshal device entries w
  exact ⟨_, rfl, h1, filterMap_length_add_failed _ _, h2, h3⟩

/-- What `processResponse` does with an explicit stream error message: it
raises the "subscribe" error counter of the device by one and makes no other
call, so the subscribe-status gauge keeps the value it had. -/
theorem processResponse_stream_error (unmarshal : List UInt8 → Option InterfaceState)
    (w : World) (device : String) :
    ∃ w1, processResponse unmarshal w device .Error = some w1 ∧
      errorCount w1.metrics device "subscribe" = errorCount w.metrics device "subscribe" + 1 ∧
      subscribeGauge w1.metrics device = subscribeGauge w.metrics device ∧
      w1.metrics.SubscribeStatus = w.metrics.SubscribeStatus ∧
      w1.trace = w.trace ++ [Event.incError "subscribe"] :=
  ⟨_, rfl, errorCount_IncError w.metrics device "subscribe", rfl, rfl, rfl⟩

/-- The example device is streaming, its subscribe-status gauge is 1; an
explicit stream error message arrives: the gauge is still 1 afterwards,
not 0. -/
theorem processResponse_stream_error_counterexample :
    subscribeGauge (attempt exampleUnmarshal exampleSwitch exampleWorld
        (streamingScript "token-1" [] 0)).1.metrics "10.0.0.1" = some 1 ∧
    ¬ ∃ w1, processResponse exampleUnmarshal
          (attempt exampleUnmarshal exampleSwitch exampleWorld (streamingScript "token-1" [] 0)).1
          "10.0.0.1" .Error = some w1 ∧
        subscribeGauge w1.metrics "10.0.0.1" = some 0 := by
  refine ⟨by decide, ?_⟩
  rintro ⟨w1, h1, h2⟩
  simp only [processResponse, Option.some.injEq] at h1
  subst h1
  revert h2
  decide

/-- C5, the code at the failing input. The example device is streaming with
subscribe status 1 when `Recv` delivers an explicit stream error message:
`processResponse` counts one "subscribe" error and makes no other call, so the
attempt stays in its receive loop and the subscribe-status gauge still reads
1, not 0. When `Recv` itself returns an error instead, the sibling path counts
the same error and does set the gauge to 0. -/
theorem stream_error_keeps_subscribe_status :
    (attempt exampleUnmarshal exampleSwitch exampleWorld
        (streamingScript "token-1" [RecvScript.msg SubscribeResponse.Error] 0)).2 = false ∧
    (attempt exampleUnmarshal exampleSwitch exampleWorld
        (streamingScript "token-1" [RecvScript.msg SubscribeResponse.Error] 0)).1.trace =
      [Event.dial, Event.login, Event.connectStatus true, Event.openStream, Event.send,
        Event.subscribeStatus true, Event.recv, Event.incError "subscribe"] ∧
    errorCount (attempt exampleUnmarshal exampleSwitch exampleWorld
        (streamingScript "token-1" [RecvScript.msg SubscribeResponse.Error] 0)).1.metrics
        "10.0.0.1" "subscribe" = 1 ∧
    subscribeGauge (attempt exampleUnmarshal exampleSwitch exampleWorld
        (streamingScript "token-1" [RecvScript.msg SubscribeResponse.Error] 0)).1.metrics
        "10.0.0.1" = some 1 ∧
    subscribeGauge (attempt exampleUnmarshal exampleSwitch exampleWorld
        (streamingScript "token-1" [RecvScript.msg SubscribeResponse.Error] 0)).1.metrics
        "10.0.0.1" ≠ some 0 ∧
    errorCount (attempt exampleUnmarshal exampleSwitch exampleWorld
        (streamingScript "token-1" [RecvScript.error] 0)).1.metrics
        "10.0.0.1" "subscribe" = 1 ∧
    subscribeGauge (attempt exampleUnmarshal exampleSwitch exampleWorld
        (streamingScript "token-1" [RecvScript.error] 0)).1.metrics
        "10.0.0.1" = some 0 := by
  decide

/-! ## The aggregation worker -/

/-- C10. For every task the worker applies, the admin-status gauge of the
series whose label map is the one built for the task (device, interface name
and the resolved extra labels) is set to 1 when `AdminStatus` is exactly "UP"
and to 0 for every other string, and the oper-status gauge likewise from
`OperStatus`. For the device "10.0.0.1" with `site=dc1` and the queued update
`{eth1, UP, DOWN}` the admin gauge of
`{device=10.0.0.1, interface=eth1, site=dc1}` becomes 1 and the oper gauge 0. -/
theorem processTask_gauges (m : Metrics) (task : updateTask) :
    (MetricVec.value (processTask m task).AdminStatus (processUpdatesLabels m task) =
        some (if task.state.AdminStatus = "UP" then 1 else 0) ∧
      MetricVec.value (processTask m task).OperStatus (processUpdatesLabels m task) =
        some (if task.state.OperStatus = "UP" then 1 else 0) ∧
      GoMap.lookup (processUpdatesLabels m task) "device" =
        (if "device" ∈ m.extraLabelNames
          then some ((configuredValue m task.device "device").getD "")
          else some task.device) ∧
      GoMap.lookup (processUpdatesLabels m task) "interface" =
        (if "interface" ∈ m.extraLabelNames
          then some ((configuredValue m task.device "interface").getD "")
          else some task.state.Name) ∧
      resolvesLabels m task.device ["device", "interface"] (processUpdatesLabels m task)) ∧
    (MetricVec.value
        (processUpdates (Update exampleWorld.metrics "10.0.0.1" ⟨"eth1", "UP", "DOWN"⟩)).AdminStatus
        [("device", "10.0.0.1"), ("interface", "eth1"), ("site", "dc1")] = some 1 ∧
      MetricVec.value
        (processUpdates (Update exampleWorld.metrics "10.0.0.1" ⟨"eth1", "UP", "DOWN"⟩)).OperStatus
        [("site", "dc1"), ("device", "10.0.0.1"), ("interface", "eth1")] = some 0) := by
  refine ⟨⟨?_, ?_, ?_, ?_, resolvesLabels_fill m task.device _⟩, by decide, by decide⟩
  · simp only [processTask, MetricVec.value_Set]
  · simp only [processTask, MetricVec.value_Set]
  · simp only [processUpdatesLabels, fillExtraLabels_lookup]
    split
    · unfold configuredValue deviceLabelsOf
      cases GoMap.lookup m.deviceLabels task.device <;> simp [GoMap.lookup]
    · simp [GoMap.lookup]
  · simp only [processUpdatesLabels, fillExtraLabels_lookup]
    split
    · unfold configuredValue deviceLabelsOf
      cases GoMap.lookup m.deviceLabels task.device <;> simp [GoMap.lookup]
    · simp [GoMap.lookup]

/-! ## Status gauges -/

theorem subscribeGauge_UpdateSubscribeStatus (m : Metrics) (device : String) (active : Bool) :
    subscribeGauge (UpdateSubscribeStatus m device active) device =
      some (if active then 1 else 0) := by
  have h : subscribeStatusLabels (UpdateSubscribeStatus m device active) device =
      subscribeStatusLabels m device := rfl
  simp only [subscribeGauge, h]
  simp [UpdateSubscribeStatus, MetricVec.value_Set]

theorem connectGauge_UpdateConnectStatus (m : Metrics) (device : String) (connected : Bool) :
    connectGauge (UpdateConnectStatus m device connected) device =
      some (if connected then 1 else 0) := by
  have h : connectStatusLabels (UpdateConnectStatus m device connected) device =
      connectStatusLabels m device := rfl
  simp only [connectGauge, h]
  simp [UpdateConnectStatus, MetricVec.value_Set]

theorem subscribeGauge_dataOnly {w w1 : World} (h : dataOnly w w1) (device : String) :
    subscribeGauge w1.metrics device = subscribeGauge w.metrics device := by
  obtain ⟨-, hs, -, hl, hn, -⟩ := h
  simp only [subscribeGauge, subscribeStatusLabels, deviceLabelsOf, hs, hl, hn]

theorem Event.isStream_of_isData {e : Event} (h : Event.isData e = true) :
    Event.isStream e = true := by
  cases e <;> simp_all [Event.isStream, Event.isData]

theorem streamOnly_of_dataOnly {w w1 : World} (h : dataOnly w w1) : streamOnly w w1 := by
  obtain ⟨hs, -, -, hl, hn, delta, ht, hd⟩ := h
  exact ⟨hs, hl, hn, delta, ht, fun e he => Event.isStream_of_isData (hd e he)⟩

theorem streamOnly_trans {a b c : World} (h1 : streamOnly a b) (h2 : streamOnly b c) :
    streamOnly a c := by
  obtain ⟨s1, l1, n1, d1, t1, p1⟩ := h1
  obtain ⟨s2, l2, n2, d2, t2, p2⟩ := h2
  refine ⟨s2.trans s1, l2.trans l1, n2.trans n1, d1 ++ d2, ?_, ?_⟩
  · rw [t2, t1, List.append_assoc]
  · intro e he
    rcases List.mem_append.mp he with h | h
    · exact p1 e h
    · exact p2 e h

/-! ## The receive loop -/

/-- The loop ends blocked or faulted after data actions only, or it breaks
right after the failing `Recv`, the error count and the status write. -/
theorem recvLoop_shape (unmarshal : List UInt8 → Option InterfaceState) (device : String)
    (recvs : List RecvScript) (w : World) :
    ∃ w1, dataOnly w w1 ∧
      (recvLoop unmarshal device w recvs = (w1, .blocked) ∨
        recvLoop unmarshal device w recvs = (w1, .panicked) ∨
        recvLoop unmarshal device w recvs =
          (((w1.emit [Event.recv]).IncError device "subscribe").UpdateSubscribeStatus
            device false, .returned)) := by
  induction recvs generalizing w with
  | nil => exact ⟨w, dataOnly_refl w, Or.inl rfl⟩
  | cons r rest ih =>
    cases r with
    | error => exact ⟨w, dataOnly_refl w, Or.inr (Or.inr rfl)⟩
    | fault => exact ⟨w.emit [Event.recv], dataOnly_recv w, Or.inr (Or.inl rfl)⟩
    | msg resp =>
      cases h : processResponse unmarshal (w.emit [Event.recv]) device resp with
      | none =>
        refine ⟨w.emit [Event.recv], dataOnly_recv w, Or.inr (Or.inl ?_)⟩
        simp [recvLoop, h]
      | some w2 =>
        obtain ⟨w1, hd, hr⟩ := ih w2
        refine ⟨w1, dataOnly_trans (dataOnly_trans (dataOnly_recv w)
          (dataOnly_processResponse unmarshal device _ _ resp h)) hd, ?_⟩
        simpa [recvLoop, h] using hr

theorem processResponse_isSome (unmarshal : List UInt8 → Option InterfaceState) (w : World)
    (device : String) (resp : SubscribeResponse) (h : resp ≠ SubscribeResponse.Update none) :
    ∃ w1, processResponse unmarshal w device resp = some w1 := by
  cases resp with
  | Update update =>
    cases update with
    | none => exact absurd rfl h
    | some n => exact ⟨_, rfl⟩
  | SyncResponse done => exact ⟨_, rfl⟩
  | Error => exact ⟨_, rfl⟩
  | unset => exact ⟨_, rfl⟩

/-- A run of messages that all get processed leaves the loop blocked in
`Recv`; whatever answer comes next decides how the loop ends. -/
theorem recvLoop_messages (unmarshal : List UInt8 → Option InterfaceState) (device : String)
    (msgs : List SubscribeResponse) (h : ∀ resp ∈ msgs, resp ≠ SubscribeResponse.Update none)
    (w : World) :
    ∃ w1, dataOnly w w1 ∧
      recvLoop unmarshal device w (msgs.map RecvScript.msg) = (w1, .blocked) ∧
      (∀ rest, recvLoop unmarshal device w (msgs.map RecvScript.msg ++ RecvScript.error :: rest) =
        (((w1.emit [Event.recv]).IncError device "subscribe").UpdateSubscribeStatus
          device false, .returned)) ∧
      (∀ rest, recvLoop unmarshal device w (msgs.map RecvScript.msg ++ RecvScript.fault :: rest) =
        (w1.emit [Event.recv], .panicked)) ∧
      (∀ rest, recvLoop unmarshal device w
          (msgs.map RecvScript.msg ++ RecvScript.msg (SubscribeResponse.Update none) :: rest) =
        (w1.emit [Event.recv], .panicked)) := by
  induction msgs generalizing w with
  | nil => exact ⟨w, dataOnly_refl w, rfl, fun _ => rfl, fun _ => rfl, fun _ => rfl⟩
  | cons resp rest ih =>
    obtain ⟨w2, h2⟩ := processResponse_isSome unmarshal (w.emit [Event.recv]) device resp
      (h resp (List.mem_cons_self _ _))
    obtain ⟨w1, hd, hb, he, hf, hn⟩ := ih (fun r hr => h r (List.mem_cons_of_mem _ hr)) w2
    refine ⟨w1, dataOnly_trans (dataOnly_trans (dataOnly_recv w)
      (dataOnly_processResponse unmarshal device _ _ resp h2)) hd, ?_, ?_, ?_, ?_⟩
    · simpa [recvLoop, h2] using hb
    · intro tl
      simpa [recvLoop, h2] using he tl
    · intro tl
      simpa [recvLoop, h2] using hf tl
    · intro tl
      simpa [recvLoop, h2] using hn tl

theorem backoffSleep_eq (w : World) (r : Nat) :
    ∃ d, inBackoffInterval baseDelay maxDelay d ∧
      backoffSleep w r = (w.emit [Event.sleep d], .returned) := by
  obtain ⟨d, hd, hin⟩ := backoff_delay r
  refine ⟨d, hin, ?_⟩
  unfold backoffSleep
  rw [hd]
  rfl

/-! ## One attempt -/

theorem subscribeBody_shape (unmarshal : List UInt8 → Option InterfaceState) (device : String)
    (w : World) (s : AttemptScript) :
    ∃ wq, streamOnly w wq ∧
      (subscribeBody unmarshal device w s = (wq, .blocked) ∨
        subscribeBody unmarshal device w s = (wq, .panicked) ∨
        ∃ d, inBackoffInterval baseDelay maxDelay d ∧
          subscribeGauge wq.metrics device = some 0 ∧
          subscribeBody unmarshal device w s = (wq.emit [Event.sleep d], .returned)) := by
  have failed : ∀ es : List Event, (∀ e ∈ es, Event.isStream e = true) →
      streamOnly w (((w.emit es).IncError device "subscribe").UpdateSubscribeStatus
        device false) := by
    intro es hes
    refine ⟨rfl, rfl, rfl, es ++ [Event.incError "subscribe", Event.subscribeStatus false],
      ?_, ?_⟩
    · simp [World.emit, World.IncError, World.UpdateSubscribeStatus]
    · intro e he
      rcases List.mem_append.mp he with h | h
      · exact hes e h
      · simp only [List.mem_cons, List.mem_singleton, List.not_mem_nil, or_false] at h
        rcases h with rfl | rfl <;> simp [Event.isStream, Event.isData]
  cases hO : s.openStream with
  | fault =>
    refine ⟨w.emit [Event.openStream],
      ⟨rfl, rfl, rfl, [Event.openStream], rfl, by simp [Event.isStream]⟩, Or.inr (Or.inl ?_)⟩
    simp [subscribeBody, hO]
  | error =>
    obtain ⟨d, hin, hd⟩ := backoffSleep_eq
      (((w.emit [Event.openStream]).IncError device "subscribe").UpdateSubscribeStatus
        device false) s.draw
    refine ⟨_, failed [Event.openStream] (by simp [Event.isStream]),
      Or.inr (Or.inr ⟨d, hin, subscribeGauge_UpdateSubscribeStatus _ device false, ?_⟩)⟩
    simp only [subscribeBody, hO]
    exact hd
  | ok =>
    cases hS : s.send with
    | fault =>
      refine ⟨w.emit [Event.openStream, Event.send],
        ⟨rfl, rfl, rfl, [Event.openStream, Event.send], rfl, by simp [Event.isStream]⟩,
        Or.inr (Or.inl ?_)⟩
      simp [subscribeBody, hO, hS]
    | error =>
      obtain ⟨d, hin, hd⟩ := backoffSleep_eq
        (((w.emit [Event.openStream, Event.send]).IncError device
          "subscribe").UpdateSubscribeStatus device false) s.draw
      refine ⟨_, failed [Event.openStream, Event.send] (by simp [Event.isStream]),
        Or.inr (Or.inr ⟨d, hin, subscribeGauge_UpdateSubscribeStatus _ device false, ?_⟩)⟩
      simp only [subscribeBody, hO, hS]
      exact hd
    | ok =>
      have started : streamOnly w
          ((w.emit [Event.openStream, Event.send]).UpdateSubscribeStatus device true) :=
        ⟨rfl, rfl, rfl, [Event.openStream, Event.send, Event.subscribeStatus true],
          by simp [World.emit, World.UpdateSubscribeStatus], by simp [Event.isStream]⟩
      obtain ⟨w1, hd1, hr⟩ := recvLoop_shape unmarshal device s.recvs
        ((w.emit [Event.openStream, Event.send]).UpdateSubscribeStatus device true)
      have upto : streamOnly w w1 := streamOnly_trans started (streamOnly_of_dataOnly hd1)
      rcases hr with hr | hr | hr
      · refine ⟨w1, upto, Or.inl ?_⟩
        simp only [subscribeBody, hO, hS, hr]
      · refine ⟨w1, upto, Or.inr (Or.inl ?_)⟩
        simp only [subscribeBody, hO, hS, hr]
      · obtain ⟨d, hin, hd⟩ := backoffSleep_eq
          (((w1.emit [Event.recv]).IncError device "subscribe").UpdateSubscribeStatus
            device false) s.draw
        have closing : streamOnly w1
            (((w1.emit [Event.recv]).IncError device "subscribe").UpdateSubscribeStatus
              device false) :=
          ⟨rfl, rfl, rfl, [Event.recv, Event.incError "subscribe", Event.subscribeStatus false],
            by simp [World.emit, World.IncError, World.UpdateSubscribeStatus],
            by simp [Event.isStream, Event.isData]⟩
        refine ⟨_, streamOnly_trans upto closing,
          Or.inr (Or.inr ⟨d, hin, subscribeGauge_UpdateSubscribeStatus _ device false, ?_⟩)⟩
        simp only [subscribeBody, hO, hS, hr]
        exact hd

/-- An attempt whose connect returns an error. -/
theorem attempt_connect_error (unmarshal : List UInt8 → Option InterfaceState)
    (sw : ResolvedSwitch) (w : World) (s : AttemptScript)
    (hc : s.connect = .dialError ∨ s.connect = .loginError) :
    ∃ pre d, (pre = [Event.dial] ∨ pre = [Event.dial, Event.login, Event.connClose]) ∧
      inBackoffInterval baseDelay maxDelay d ∧
      attempt unmarshal sw w s =
        ((((w.emit pre).IncError sw.Address "connect").UpdateConnectStatus
          sw.Address false).emit [Event.sleep d], true) := by
  rcases hc with hc | hc
  · obtain ⟨d, hin, hd⟩ := backoffSleep_eq
      (((w.emit [Event.dial]).IncError sw.Address "connect").UpdateConnectStatus
        sw.Address false) s.draw
    refine ⟨[Event.dial], d, Or.inl rfl, hin, ?_⟩
    simp only [attempt, attemptBody, connect, NewClient, hc, withDeferred, hd]
  · obtain ⟨d, hin, hd⟩ := backoffSleep_eq
      (((w.emit [Event.dial, Event.login, Event.connClose]).IncError sw.Address
        "connect").UpdateConnectStatus sw.Address false) s.draw
    refine ⟨[Event.dial, Event.login, Event.connClose], d, Or.inr rfl, hin, ?_⟩
    simp only [attempt, attemptBody, connect, NewClient, hc, withDeferred, hd]

/-- An attempt whose connect raises a fault. -/
theorem attempt_connect_fault (unmarshal : List UInt8 → Option InterfaceState)
    (sw : ResolvedSwitch) (w : World) (s : AttemptScript) (hc : s.connect = .fault) :
    attemptBody unmarshal sw w s = (w.emit [Event.dial], .panicked, none) ∧
    attempt unmarshal sw w s = (recoverPanic (w.emit [Event.dial]) sw.Address, true) := by
  constructor <;> simp only [attempt, attemptBody, connect, NewClient, hc]

/-- An attempt whose connect succeeds. -/
theorem attempt_connect_ok (unmarshal : List UInt8 → Option InterfaceState)
    (sw : ResolvedSwitch) (w : World) (s : AttemptScript) (token : String)
    (hc : s.connect = .ok token) :
    ∃ wq, streamOnly (connect sw w (.ok token)).1 wq ∧
      ((attemptBody unmarshal sw w s = (wq, .blocked, some ⟨token⟩) ∧
          attempt unmarshal sw w s = (wq, false)) ∨
        (attemptBody unmarshal sw w s = (wq, .panicked, some ⟨token⟩) ∧
          attempt unmarshal sw w s =
            (recoverPanic (GrpcSession.Close wq ⟨token⟩) sw.Address, true)) ∨
        ∃ d, inBackoffInterval baseDelay maxDelay d ∧
          subscribeGauge wq.metrics sw.Address = some 0 ∧
          attemptBody unmarshal sw w s = (wq.emit [Event.sleep d], .returned, some ⟨token⟩) ∧
          attempt unmarshal sw w s =
            (GrpcSession.Close (wq.emit [Event.sleep d]) ⟨token⟩, true)) := by
  obtain ⟨wq, hso, hr⟩ := subscribeBody_shape unmarshal sw.Address
    (connect sw w (.ok token)).1 s
  have hb : attemptBody unmarshal sw w s =
      withDeferred (some ⟨token⟩)
        (subscribeBody unmarshal sw.Address (connect sw w (.ok token)).1 s) := by
    simp only [attemptBody, connect, NewClient, hc]
  refine ⟨wq, hso, ?_⟩
  rcases hr with hr | hr | ⟨d, hin, hg, hr⟩
  · refine Or.inl ⟨?_, ?_⟩
    · rw [hb, hr]; rfl
    · simp only [attempt, hb, hr, withDeferred]
  · refine Or.inr (Or.inl ⟨?_, ?_⟩)
    · rw [hb, hr]; rfl
    · simp only [attempt, hb, hr, withDeferred]
  · refine Or.inr (Or.inr ⟨d, hin, hg, ?_, ?_⟩)
    · rw [hb, hr]; rfl
    · simp only [attempt, hb, hr, withDeferred]

theorem Event.not_isRelease_of_isStream {e : Event} (h : Event.isStream e = true) :
    Event.isRelease e = false := by
  cases e <;> simp_all [Event.isStream, Event.isData, Event.isRelease]

theorem Event.ne_panic_of_isStream {e : Event} (h : Event.isStream e = true) :
    e ≠ Event.incError "panic" := by
  rintro rfl
  revert h
  decide

theorem connect_ok_world (sw : ResolvedSwitch) (w : World) (token : String) :
    (connect sw w (.ok token)).1.sessions = ⟨token⟩ :: w.sessions ∧
    (connect sw w (.ok token)).1.trace =
      w.trace ++ [Event.dial, Event.login, Event.connectStatus true] := by
  constructor
  · rfl
  · simp [connect, NewClient, World.UpdateConnectStatus]

/-- An attempt that ends leaves the open sessions as it found them. -/
theorem attempt_sessions (unmarshal : List UInt8 → Option InterfaceState)
    (sw : ResolvedSwitch) (w : World) (s : AttemptScript)
    (hend : (attempt unmarshal sw w s).2 = true) :
    (attempt unmarshal sw w s).1.sessions = w.sessions := by
  cases hc : s.connect with
  | dialError =>
    obtain ⟨pre, d, -, -, h⟩ := attempt_connect_error unmarshal sw w s (Or.inl hc)
    rw [h]; rfl
  | loginError =>
    obtain ⟨pre, d, -, -, h⟩ := attempt_connect_error unmarshal sw w s (Or.inr hc)
    rw [h]; rfl
  | fault =>
    rw [(attempt_connect_fault unmarshal sw w s hc).2]; rfl
  | ok token =>
    obtain ⟨wq, ⟨hs, -⟩, h⟩ := attempt_connect_ok unmarshal sw w s token hc
    have hq : wq.sessions = ⟨token⟩ :: w.sessions := hs.trans (connect_ok_world sw w token).1
    rcases h with ⟨-, h⟩ | ⟨-, h⟩ | ⟨d, -, -, -, h⟩
    · rw [h] at hend
      cases hend
    · rw [h]
      show wq.sessions.erase ⟨token⟩ = w.sessions
      rw [hq, List.erase_cons_head]
    · rw [h]
      show wq.sessions.erase ⟨token⟩ = w.sessions
      rw [hq, List.erase_cons_head]

/-- As long as every attempt ends, the loop starts each attempt with the open
sessions it started the first one with. -/
theorem Subscribe_sessions (unmarshal : List UInt8 → Option InterfaceState)
    (sw : ResolvedSwitch) (scripts : List AttemptScript) (w : World)
    (hend : (Subscribe unmarshal sw w scripts).2 = true) :
    (Subscribe unmarshal sw w scripts).1.sessions = w.sessions := by
  induction scripts generalizing w with
  | nil => rfl
  | cons s rest ih =>
    cases ha : attempt unmarshal sw w s with
    | mk w1 ended =>
      cases ended with
      | false =>
        simp [Subscribe, ha] at hend
      | true =>
        have h1 : (attempt unmarshal sw w s).1.sessions = w.sessions :=
          attempt_sessions unmarshal sw w s (by rw [ha])
        rw [ha] at h1
        simp only [Subscribe, ha] at hend ⊢
        rw [ih w1 hend, h1]

/-- Every attempt begins by dialling. -/
theorem attempt_trace_dial (unmarshal : List UInt8 → Option InterfaceState)
    (sw : ResolvedSwitch) (w : World) (s : AttemptScript) :
    ∃ tail, (attempt unmarshal sw w s).1.trace = w.trace ++ Event.dial :: tail := by
  cases hc : s.connect with
  | dialError =>
    obtain ⟨pre, d, hp, -, h⟩ := attempt_connect_error unmarshal sw w s (Or.inl hc)
    rcases hp with rfl | rfl <;>
      exact ⟨_, by rw [h]; simp [World.emit, World.IncError, World.UpdateConnectStatus]; rfl⟩
  | loginError =>
    obtain ⟨pre, d, hp, -, h⟩ := attempt_connect_error unmarshal sw w s (Or.inr hc)
    rcases hp with rfl | rfl <;>
      exact ⟨_, by rw [h]; simp [World.emit, World.IncError, World.UpdateConnectStatus]; rfl⟩
  | fault =>
    refine ⟨[Event.incError "panic", Event.subscribeStatus false], ?_⟩
    rw [(attempt_connect_fault unmarshal sw w s hc).2]
    simp [recoverPanic, World.emit, World.IncError, World.UpdateSubscribeStatus]
  | ok token =>
    obtain ⟨wq, ⟨-, -, -, delta, ht, -⟩, h⟩ := attempt_connect_ok unmarshal sw w s token hc
    rw [(connect_ok_world sw w token).2] at ht
    rcases h with ⟨-, h⟩ | ⟨-, h⟩ | ⟨d, -, -, -, h⟩
    · exact ⟨[Event.login, Event.connectStatus true] ++ delta, by rw [h, ht]; simp⟩
    · refine ⟨[Event.login, Event.connectStatus true] ++ delta ++
        [Event.logout token, Event.connClose, Event.incError "panic",
          Event.subscribeStatus false], ?_⟩
      rw [h]
      simp [recoverPanic, GrpcSession.Close, World.IncError, World.UpdateSubscribeStatus, ht]
    · refine ⟨[Event.login, Event.connectStatus true] ++ delta ++
        [Event.sleep d, Event.logout token, Event.connClose], ?_⟩
      rw [h]
      simp [GrpcSession.Close, World.emit, ht]

/-- The loop only ever extends the trace. -/
theorem Subscribe_trace (unmarshal : List UInt8 → Option InterfaceState)
    (sw : ResolvedSwitch) (scripts : List AttemptScript) (w : World) :
    ∃ ext, (Subscribe unmarshal sw w scripts).1.trace = w.trace ++ ext := by
  induction scripts generalizing w with
  | nil => exact ⟨[], by simp [Subscribe]⟩
  | cons s rest ih =>
    obtain ⟨tail, ht⟩ := attempt_trace_dial unmarshal sw w s
    cases ha : attempt unmarshal sw w s with
    | mk w1 ended =>
      rw [ha] at ht
      cases ended with
      | false => exact ⟨Event.dial :: tail, by simp only [Subscribe, ha]; exact ht⟩
      | true =>
        obtain ⟨ext, he⟩ := ih w1
        refine ⟨Event.dial :: tail ++ ext, ?_⟩
        simp only [Subscribe, ha]
        rw [he, ht]
        simp

/-- Whenever a further script is there, the next action of the loop is a dial:
the loop has gone on to another connect attempt. -/
theorem Subscribe_next_dial (unmarshal : List UInt8 → Option InterfaceState)
    (sw : ResolvedSwitch) (w : World) (s : AttemptScript) (rest : List AttemptScript) :
    ∃ tail, (Subscribe unmarshal sw w (s :: rest)).1.trace = w.trace ++ Event.dial :: tail := by
  obtain ⟨tail, ht⟩ := attempt_trace_dial unmarshal sw w s
  cases ha : attempt unmarshal sw w s with
  | mk w1 ended =>
    rw [ha] at ht
    cases ended with
    | false => exact ⟨tail, by simp only [Subscribe, ha]; exact ht⟩
    | true =>
      obtain ⟨ext, he⟩ := Subscribe_trace unmarshal sw rest w1
      refine ⟨tail ++ ext, ?_⟩
      simp only [Subscribe, ha]
      rw [he, ht]
      simp

/-! ## An attempt that reaches streaming -/

theorem streaming_blocked (unmarshal : List UInt8 → Option InterfaceState)
    (sw : ResolvedSwitch) (w w1 : World) (token : String) (recvs : List RecvScript) (draw : Nat)
    (h : recvLoop unmarshal sw.Address (streamStart sw w token) recvs = (w1, .blocked)) :
    attempt unmarshal sw w (streamingScript token recvs draw) = (w1, false) := by
  simp only [streamStart, connect, NewClient] at h
  simp only [attempt, attemptBody, connect, NewClient, streamingScript, subscribeBody,
    withDeferred, h]

theorem streaming_panicked (unmarshal : List UInt8 → Option InterfaceState)
    (sw : ResolvedSwitch) (w w1 : World) (token : String) (recvs : List RecvScript) (draw : Nat)
    (h : recvLoop unmarshal sw.Address (streamStart sw w token) recvs = (w1, .panicked)) :
    attemptBody unmarshal sw w (streamingScript token recvs draw) =
        (w1, .panicked, some ⟨token⟩) ∧
      attempt unmarshal sw w (streamingScript token recvs draw) =
        (recoverPanic (GrpcSession.Close w1 ⟨token⟩) sw.Address, true) := by
  simp only [streamStart, connect, NewClient] at h
  constructor <;>
    simp only [attempt, attemptBody, connect, NewClient, streamingScript, subscribeBody,
      withDeferred, h]

theorem streaming_returned (unmarshal : List UInt8 → Option InterfaceState)
    (sw : ResolvedSwitch) (w w1 : World) (token : String) (recvs : List RecvScript) (draw : Nat)
    (h : recvLoop unmarshal sw.Address (streamStart sw w token) recvs = (w1, .returned)) :
    ∃ d, inBackoffInterval baseDelay maxDelay d ∧
      attempt unmarshal sw w (streamingScript token recvs draw) =
        (GrpcSession.Close (w1.emit [Event.sleep d]) ⟨token⟩, true) := by
  obtain ⟨d, hin, hd⟩ := backoffSleep_eq w1 draw
  refine ⟨d, hin, ?_⟩
  simp only [streamStart, connect, NewClient] at h
  simp only [attempt, attemptBody, connect, NewClient, streamingScript, subscribeBody,
    withDeferred, h, hd]

/-- C8. An attempt has reached streaming and processed the messages `msgs`:
it is blocked in `Recv` in the world `w1`, with subscribe status 1 and its
session open. When that `Recv` returns an error instead, the attempt does
exactly this and then ends: it counts one "subscribe" error, sets the
subscribe status to 0, sleeps one backoff delay `d` with `5 s ≤ d ≤ 60 s`,
logs out and closes the connection. It calls `Recv` no second time, whatever
the stream would have answered next; the counter is one above its value in
`w1`, the session is released, and the next action of the loop is the dial of
a new connect attempt. -/
theorem recv_error_restarts (unmarshal : List UInt8 → Option InterfaceState)
    (sw : ResolvedSwitch) (w : World) (token : String) (draw : Nat)
    (msgs : List SubscribeResponse) (rest : List RecvScript)
    (h : ∀ resp ∈ msgs, resp ≠ SubscribeResponse.Update none) :
    ∃ w1 d,
      attempt unmarshal sw w (streamingScript token (msgs.map RecvScript.msg) draw) =
        (w1, false) ∧
      subscribeGauge w1.metrics sw.Address = some 1 ∧
      w1.sessions = ⟨token⟩ :: w.sessions ∧
      (attempt unmarshal sw w
        (streamingScript token (msgs.map RecvScript.msg ++ RecvScript.error :: rest) draw)).2 =
          true ∧
      (attempt unmarshal sw w
        (streamingScript token (msgs.map RecvScript.msg ++ RecvScript.error :: rest)
          draw)).1.trace =
        w1.trace ++ [Event.recv, Event.incError "subscribe", Event.subscribeStatus false,
          Event.sleep d, Event.logout token, Event.connClose] ∧
      baseDelay ≤ d ∧ d ≤ maxDelay ∧
      subscribeGauge (attempt unmarshal sw w
        (streamingScript token (msgs.map RecvScript.msg ++ RecvScript.error :: rest)
          draw)).1.metrics sw.Address = some 0 ∧
      errorCount (attempt unmarshal sw w
        (streamingScript token (msgs.map RecvScript.msg ++ RecvScript.error :: rest)
          draw)).1.metrics sw.Address "subscribe" =
        errorCount w1.metrics sw.Address "subscribe" + 1 ∧
      (attempt unmarshal sw w
        (streamingScript token (msgs.map RecvScript.msg ++ RecvScript.error :: rest)
          draw)).1.sessions = w.sessions ∧
      ∀ next later, ∃ tail,
        (Subscribe unmarshal sw w
          (streamingScript token (msgs.map RecvScript.msg ++ RecvScript.error :: rest) draw ::
            next :: later)).1.trace =
        (attempt unmarshal sw w
          (streamingScript token (msgs.map RecvScript.msg ++ RecvScript.error :: rest)
            draw)).1.trace ++ Event.dial :: tail := by
  obtain ⟨w1, hd, hb, he, -, -⟩ := recvLoop_messages unmarshal sw.Address msgs h
    (streamStart sw w token)
  obtain ⟨d, hin, ha⟩ := streaming_returned unmarshal sw w _ token _ draw (he rest)
  have hs : w1.sessions = ⟨token⟩ :: w.sessions := hd.1
  refine ⟨w1, d, streaming_blocked unmarshal sw w w1 token _ draw hb, ?_, hs, ?_, ?_,
    hin.1, le_of_lt hin.2.1, ?_, ?_, ?_, ?_⟩
  · rw [subscribeGauge_dataOnly hd]
    exact subscribeGauge_UpdateSubscribeStatus _ sw.Address true
  · rw [ha]
  · rw [ha]
    simp [GrpcSession.Close, World.emit, World.IncError, World.UpdateSubscribeStatus]
  · rw [ha]
    exact subscribeGauge_UpdateSubscribeStatus _ sw.Address false
  · rw [ha]
    exact errorCount_IncError w1.metrics sw.Address "subscribe"
  · rw [ha]
    show w1.sessions.erase ⟨token⟩ = w.sessions
    rw [hs, List.erase_cons_head]
  · intro next later
    have hsub : Subscribe unmarshal sw w
        (streamingScript token (msgs.map RecvScript.msg ++ RecvScript.error :: rest) draw ::
          next :: later) =
        Subscribe unmarshal sw (attempt unmarshal sw w
          (streamingScript token (msgs.map RecvScript.msg ++ RecvScript.error :: rest)
            draw)).1 (next :: later) := by
      conv_lhs => rw [Subscribe, ha]
      rw [ha]
    rw [hsub]
    exact Subscribe_next_dial unmarshal sw _ next later

/-- C8, witness: the example device has processed a stream error message and a
sync message when `Recv` fails. -/
theorem recv_error_restarts_witness :
    (∀ resp ∈ [SubscribeResponse.Error, SubscribeResponse.SyncResponse true],
      resp ≠ SubscribeResponse.Update none) ∧
    ∃ w1 d,
      attempt exampleUnmarshal exampleSwitch exampleWorld
        (streamingScript "token-1"
          ([SubscribeResponse.Error, SubscribeResponse.SyncResponse true].map RecvScript.msg)
          7) = (w1, false) ∧
      subscribeGauge w1.metrics exampleSwitch.Address = some 1 ∧
      w1.sessions = ⟨"token-1"⟩ :: exampleWorld.sessions ∧
      (attempt exampleUnmarshal exampleSwitch exampleWorld
        (streamingScript "token-1"
          ([SubscribeResponse.Error, SubscribeResponse.SyncResponse true].map RecvScript.msg ++
            RecvScript.error :: [RecvScript.fault]) 7)).2 = true ∧
      (attempt exampleUnmarshal exampleSwitch exampleWorld
        (streamingScript "token-1"
          ([SubscribeResponse.Error, SubscribeResponse.SyncResponse true].map RecvScript.msg ++
            RecvScript.error :: [RecvScript.fault]) 7)).1.trace =
        w1.trace ++ [Event.recv, Event.incError "subscribe", Event.subscribeStatus false,
          Event.sleep d, Event.logout "token-1", Event.connClose] ∧
      baseDelay ≤ d ∧ d ≤ maxDelay ∧
      subscribeGauge (attempt exampleUnmarshal exampleSwitch exampleWorld
        (streamingScript "token-1"
          ([SubscribeResponse.Error, SubscribeResponse.SyncResponse true].map RecvScript.msg ++
            RecvScript.error :: [RecvScript.fault]) 7)).1.metrics exampleSwitch.Address =
        some 0 ∧
      errorCount (attempt exampleUnmarshal exampleSwitch exampleWorld
        (streamingScript "token-1"
          ([SubscribeResponse.Error, SubscribeResponse.SyncResponse true].map RecvScript.msg ++
            RecvScript.error :: [RecvScript.fault]) 7)).1.metrics exampleSwitch.Address
          "subscribe" =
        errorCount w1.metrics exampleSwitch.Address "subscribe" + 1 ∧
      (attempt exampleUnmarshal exampleSwitch exampleWorld
        (streamingScript "token-1"
          ([SubscribeResponse.Error, SubscribeResponse.SyncResponse true].map RecvScript.msg ++
            RecvScript.error :: [RecvScript.fault]) 7)).1.sessions = exampleWorld.sessions ∧
      ∀ next later, ∃ tail,
        (Subscribe exampleUnmarshal exampleSwitch exampleWorld
          (streamingScript "token-1"
            ([SubscribeResponse.Error, SubscribeResponse.SyncResponse true].map RecvScript.msg ++
              RecvScript.error :: [RecvScript.fault]) 7 :: next :: later)).1.trace =
        (attempt exampleUnmarshal exampleSwitch exampleWorld
          (streamingScript "token-1"
            ([SubscribeResponse.Error, SubscribeResponse.SyncResponse true].map RecvScript.msg ++
              RecvScript.error :: [RecvScript.fault]) 7)).1.trace ++ Event.dial :: tail :=
  ⟨by decide,
    recv_error_restarts exampleUnmarshal exampleSwitch exampleWorld "token-1" 7
      [SubscribeResponse.Error, SubscribeResponse.SyncResponse true] [RecvScript.fault]
      (by decide)⟩

/-! ## Faults -/

/-- Each kind of fault unwinds the body: a fault in connect, in opening the
stream, in sending the request, in a `Recv` after processed messages, and the
nil dereference of `processResponse` after processed messages. -/
theorem fault_unwinds_body (unmarshal : List UInt8 → Option InterfaceState)
    (sw : ResolvedSwitch) (w : World) (token : String) (draw : Nat)
    (msgs : List SubscribeResponse) (rest : List RecvScript)
    (h : ∀ resp ∈ msgs, resp ≠ SubscribeResponse.Update none) :
    (attemptBody unmarshal sw w ⟨.fault, .ok, .ok, rest, draw⟩).2.1 = .panicked ∧
    (attemptBody unmarshal sw w ⟨.ok token, .fault, .ok, rest, draw⟩).2.1 = .panicked ∧
    (attemptBody unmarshal sw w ⟨.ok token, .ok, .fault, rest, draw⟩).2.1 = .panicked ∧
    (attemptBody unmarshal sw w
      (streamingScript token (msgs.map RecvScript.msg ++ RecvScript.fault :: rest) draw)).2.1 =
        .panicked ∧
    (attemptBody unmarshal sw w
      (streamingScript token
        (msgs.map RecvScript.msg ++ RecvScript.msg (SubscribeResponse.Update none) :: rest)
        draw)).2.1 = .panicked := by
  obtain ⟨w1, -, -, -, hf, hn⟩ := recvLoop_messages unmarshal sw.Address msgs h
    (streamStart sw w token)
  refine ⟨rfl, rfl, rfl, ?_, ?_⟩
  · rw [(streaming_panicked unmarshal sw w _ token _ draw (hf rest)).1]
  · rw [(streaming_panicked unmarshal sw w _ token _ draw (hn rest)).1]

/-- The recovery function counts one "panic" error and sets the subscribe
status to 0. -/
theorem recoverPanic_effect (w : World) (device : String) :
    errorCount (recoverPanic w device).metrics device "panic" =
        errorCount w.metrics device "panic" + 1 ∧
      subscribeGauge (recoverPanic w device).metrics device = some 0 ∧
      (recoverPanic w device).trace =
        w.trace ++ [Event.incError "panic", Event.subscribeStatus false] ∧
      (recoverPanic w device).sessions = w.sessions :=
  ⟨errorCount_IncError w.metrics device "panic",
    subscribeGauge_UpdateSubscribeStatus _ device false,
    by simp [recoverPanic, World.IncError, World.UpdateSubscribeStatus], rfl⟩

/-- C9. When a runtime fault unwinds the body of an attempt, wherever it was
raised, the attempt still ends: the recovery function runs, the "panic" error
counter of the device is one above its value at the fault, the action
`IncError "panic"` occurs exactly once in the attempt, the subscribe-status
gauge is 0 afterwards, and the next action of the loop is the dial of a
further connect attempt. -/
theorem panic_recovered (unmarshal : List UInt8 → Option InterfaceState)
    (sw : ResolvedSwitch) (w : World) (s : AttemptScript)
    (hp : (attemptBody unmarshal sw w s).2.1 = BodyExit.panicked) :
    (attempt unmarshal sw w s).2 = true ∧
    errorCount (attempt unmarshal sw w s).1.metrics sw.Address "panic" =
      errorCount (attemptBody unmarshal sw w s).1.metrics sw.Address "panic" + 1 ∧
    subscribeGauge (attempt unmarshal sw w s).1.metrics sw.Address = some 0 ∧
    (∃ delta, (attempt unmarshal sw w s).1.trace = w.trace ++ delta ∧
      delta.count (Event.incError "panic") = 1) ∧
    (∀ next later, ∃ tail,
      (Subscribe unmarshal sw w (s :: next :: later)).1.trace =
        (attempt unmarshal sw w s).1.trace ++ Event.dial :: tail) := by
  have loop : (attempt unmarshal sw w s).2 = true →
      ∀ next later, ∃ tail,
        (Subscribe unmarshal sw w (s :: next :: later)).1.trace =
          (attempt unmarshal sw w s).1.trace ++ Event.dial :: tail := by
    intro hend next later
    have hsub : Subscribe unmarshal sw w (s :: next :: later) =
        Subscribe unmarshal sw (attempt unmarshal sw w s).1 (next :: later) := by
      cases ha : attempt unmarshal sw w s with
      | mk w1 ended =>
        rw [ha] at hend
        cases hend
        simp only [Subscribe, ha]
    rw [hsub]
    exact Subscribe_next_dial unmarshal sw _ next later
  cases hc : s.connect with
  | dialError =>
    obtain ⟨d, -, hd⟩ := backoffSleep_eq
      (((w.emit [Event.dial]).IncError sw.Address "connect").UpdateConnectStatus
        sw.Address false) s.draw
    simp [attemptBody, connect, NewClient, hc, withDeferred, hd] at hp
  | loginError =>
    obtain ⟨d, -, hd⟩ := backoffSleep_eq
      (((w.emit [Event.dial, Event.login, Event.connClose]).IncError sw.Address
        "connect").UpdateConnectStatus sw.Address false) s.draw
    simp [attemptBody, connect, NewClient, hc, withDeferred, hd] at hp
  | fault =>
    obtain ⟨hb, ha⟩ := attempt_connect_fault unmarshal sw w s hc
    obtain ⟨e1, e2, e3, -⟩ := recoverPanic_effect (w.emit [Event.dial]) sw.Address
    have hend : (attempt unmarshal sw w s).2 = true := by rw [ha]
    refine ⟨hend, ?_, ?_, ?_, loop hend⟩
    · rw [ha, hb]
      exact e1
    · rw [ha]
      exact e2
    · refine ⟨[Event.dial, Event.incError "panic", Event.subscribeStatus false], ?_, by decide⟩
      rw [ha]
      show (recoverPanic (w.emit [Event.dial]) sw.Address).trace = _
      rw [e3]
      simp [World.emit]
  | ok token =>
    obtain ⟨wq, ⟨-, -, -, delta, ht, hstream⟩, h⟩ :=
      attempt_connect_ok unmarshal sw w s token hc
    rw [(connect_ok_world sw w token).2] at ht
    rcases h with ⟨hb, -⟩ | ⟨hb, ha⟩ | ⟨d, -, -, hb, -⟩
    · rw [hb] at hp
      cases hp
    · obtain ⟨e1, e2, e3, -⟩ := recoverPanic_effect (GrpcSession.Close wq ⟨token⟩) sw.Address
      have hend : (attempt unmarshal sw w s).2 = true := by rw [ha]
      refine ⟨hend, ?_, ?_, ?_, loop hend⟩
      · rw [ha, hb]
        exact e1
      · rw [ha]
        exact e2
      · refine ⟨[Event.dial, Event.login, Event.connectStatus true] ++ delta ++
          [Event.logout token, Event.connClose] ++
          [Event.incError "panic", Event.subscribeStatus false], ?_, ?_⟩
        · rw [ha]
          show (recoverPanic (GrpcSession.Close wq ⟨token⟩) sw.Address).trace = _
          rw [e3]
          simp [GrpcSession.Close, ht]
        · have hz : delta.count (Event.incError "panic") = 0 :=
            List.count_eq_zero.mpr
              (fun hm => Event.ne_panic_of_isStream (hstream _ hm) rfl)
          simp [List.count_append, List.count_cons, hz]
    · rw [hb] at hp
      cases hp

/-- C9, witness: the example device receives a data update whose notification
pointer is nil, after one stream error message. -/
theorem panic_recovered_witness :
    (attemptBody exampleUnmarshal exampleSwitch exampleWorld
      (streamingScript "token-1"
        [RecvScript.msg SubscribeResponse.Error,
          RecvScript.msg (SubscribeResponse.Update none)] 0)).2.1 = BodyExit.panicked ∧
    ((attempt exampleUnmarshal exampleSwitch exampleWorld
      (streamingScript "token-1"
        [RecvScript.msg SubscribeResponse.Error,
          RecvScript.msg (SubscribeResponse.Update none)] 0)).2 = true ∧
    errorCount (attempt exampleUnmarshal exampleSwitch exampleWorld
      (streamingScript "token-1"
        [RecvScript.msg SubscribeResponse.Error,
          RecvScript.msg (SubscribeResponse.Update none)] 0)).1.metrics
        exampleSwitch.Address "panic" =
      errorCount (attemptBody exampleUnmarshal exampleSwitch exampleWorld
        (streamingScript "token-1"
          [RecvScript.msg SubscribeResponse.Error,
            RecvScript.msg (SubscribeResponse.Update none)] 0)).1.metrics
        exampleSwitch.Address "panic" + 1 ∧
    subscribeGauge (attempt exampleUnmarshal exampleSwitch exampleWorld
      (streamingScript "token-1"
        [RecvScript.msg SubscribeResponse.Error,
          RecvScript.msg (SubscribeResponse.Update none)] 0)).1.metrics
        exampleSwitch.Address = some 0 ∧
    (∃ delta, (attempt exampleUnmarshal exampleSwitch exampleWorld
        (streamingScript "token-1"
          [RecvScript.msg SubscribeResponse.Error,
            RecvScript.msg (SubscribeResponse.Update none)] 0)).1.trace =
          exampleWorld.trace ++ delta ∧
      delta.count (Event.incError "panic") = 1) ∧
    (∀ next later, ∃ tail,
      (Subscribe exampleUnmarshal exampleSwitch exampleWorld
        (streamingScript "token-1"
          [RecvScript.msg SubscribeResponse.Error,
            RecvScript.msg (SubscribeResponse.Update none)] 0 :: next :: later)).1.trace =
        (attempt exampleUnmarshal exampleSwitch exampleWorld
          (streamingScript "token-1"
            [RecvScript.msg SubscribeResponse.Error,
              RecvScript.msg (SubscribeResponse.Update none)] 0)).1.trace ++
          Event.dial :: tail)) :=
  ⟨by decide,
    panic_recovered exampleUnmarshal exampleSwitch exampleWorld
      (streamingScript "token-1"
        [RecvScript.msg SubscribeResponse.Error,
          RecvScript.msg (SubscribeResponse.Update none)] 0) (by decide)⟩

/-! ## Session release -/

/-- C6. Take any attempt of the loop, reached after earlier attempts that all
ended, from a start with no open session. No session of an earlier attempt is
open when it starts. When its connect succeeds, the session is the only open
one, and if the attempt ends (by a stream-open, send or receive failure, or by
a fault the recovery function catches), its actions contain the pair
`logout token`, `connClose` once, ahead of the end of the attempt, and no
other logout or connection close; afterwards no session is open. -/
theorem session_released (unmarshal : List UInt8 → Option InterfaceState)
    (sw : ResolvedSwitch) (w : World) (earlier : List AttemptScript) (s : AttemptScript)
    (token : String) (hw : w.sessions = [])
    (hearlier : (Subscribe unmarshal sw w earlier).2 = true)
    (hc : s.connect = .ok token)
    (hend : (attempt unmarshal sw (Subscribe unmarshal sw w earlier).1 s).2 = true) :
    (Subscribe unmarshal sw w earlier).1.sessions = [] ∧
    (connect sw (Subscribe unmarshal sw w earlier).1 s.connect).1.sessions = [⟨token⟩] ∧
    (attempt unmarshal sw (Subscribe unmarshal sw w earlier).1 s).1.sessions = [] ∧
    ∃ before after,
      (attempt unmarshal sw (Subscribe unmarshal sw w earlier).1 s).1.trace =
        (Subscribe unmarshal sw w earlier).1.trace ++ before ++
          [Event.logout token, Event.connClose] ++ after ∧
      ∀ e ∈ before ++ after, Event.isRelease e = false := by
  have h0 : (Subscribe unmarshal sw w earlier).1.sessions = [] :=
    (Subscribe_sessions unmarshal sw earlier w hearlier).trans hw
  have h1 := attempt_sessions unmarshal sw _ s hend
  refine ⟨h0, ?_, h1.trans h0, ?_⟩
  · rw [hc, (connect_ok_world sw _ token).1, h0]
  obtain ⟨wq, ⟨-, -, -, delta, ht, hstream⟩, h⟩ :=
    attempt_connect_ok unmarshal sw (Subscribe unmarshal sw w earlier).1 s token hc
  rw [(connect_ok_world sw _ token).2] at ht
  have hdelta : ∀ e ∈ delta, Event.isRelease e = false :=
    fun e he => Event.not_isRelease_of_isStream (hstream e he)
  rcases h with ⟨-, ha⟩ | ⟨-, ha⟩ | ⟨d, -, -, -, ha⟩
  · rw [ha] at hend
    cases hend
  · refine ⟨[Event.dial, Event.login, Event.connectStatus true] ++ delta,
      [Event.incError "panic", Event.subscribeStatus false], ?_, ?_⟩
    · rw [ha]
      show (recoverPanic (GrpcSession.Close wq ⟨token⟩) sw.Address).trace = _
      rw [(recoverPanic_effect _ _).2.2.1]
      simp [GrpcSession.Close, ht]
    · intro e he
      simp only [List.mem_append, List.mem_cons, List.mem_singleton, List.not_mem_nil,
        or_false] at he
      rcases he with ((rfl | rfl | rfl) | he) | rfl | rfl
      · rfl
      · rfl
      · rfl
      · exact hdelta e he
      · rfl
      · rfl
  · refine ⟨[Event.dial, Event.login, Event.connectStatus true] ++ delta ++ [Event.sleep d],
      [], ?_, ?_⟩
    · rw [ha]
      simp [GrpcSession.Close, World.emit, ht]
    · intro e he
      simp only [List.mem_append, List.mem_cons, List.mem_singleton, List.not_mem_nil,
        or_false] at he
      rcases he with ((rfl | rfl | rfl) | he) | rfl
      · rfl
      · rfl
      · rfl
      · exact hdelta e he
      · rfl

/-- C6, witness: the example device, whose first attempt faulted in `Recv`,
meets a receive error after one data update in its second attempt. -/
theorem session_released_witness :
    (exampleWorld.sessions = [] ∧
      (Subscribe exampleUnmarshal exampleSwitch exampleWorld
        [streamingScript "token-1" [RecvScript.fault] 0]).2 = true ∧
      (streamingScript "token-2" [RecvScript.error] 3).connect = .ok "token-2" ∧
      (attempt exampleUnmarshal exampleSwitch
        (Subscribe exampleUnmarshal exampleSwitch exampleWorld
          [streamingScript "token-1" [RecvScript.fault] 0]).1
        (streamingScript "token-2" [RecvScript.error] 3)).2 = true) ∧
    ((Subscribe exampleUnmarshal exampleSwitch exampleWorld
        [streamingScript "token-1" [RecvScript.fault] 0]).1.sessions = [] ∧
    (connect exampleSwitch
      (Subscribe exampleUnmarshal exampleSwitch exampleWorld
        [streamingScript "token-1" [RecvScript.fault] 0]).1
      (streamingScript "token-2" [RecvScript.error] 3).connect).1.sessions = [⟨"token-2"⟩] ∧
    (attempt exampleUnmarshal exampleSwitch
      (Subscribe exampleUnmarshal exampleSwitch exampleWorld
        [streamingScript "token-1" [RecvScript.fault] 0]).1
      (streamingScript "token-2" [RecvScript.error] 3)).1.sessions = [] ∧
    ∃ before after,
      (attempt exampleUnmarshal exampleSwitch
        (Subscribe exampleUnmarshal exampleSwitch exampleWorld
          [streamingScript "token-1" [RecvScript.fault] 0]).1
        (streamingScript "token-2" [RecvScript.error] 3)).1.trace =
        (Subscribe exampleUnmarshal exampleSwitch exampleWorld
          [streamingScript "token-1" [RecvScript.fault] 0]).1.trace ++ before ++
          [Event.logout "token-2", Event.connClose] ++ after ∧
      ∀ e ∈ before ++ after, Event.isRelease e = false) :=
  ⟨⟨rfl, by decide, rfl, by decide⟩,
    session_released exampleUnmarshal exampleSwitch exampleWorld
      [streamingScript "token-1" [RecvScript.fault] 0]
      (streamingScript "token-2" [RecvScript.error] 3) "token-2" rfl (by decide) rfl
      (by decide)⟩

/-! ## Backoff after a fault -/

theorem Event.ne_sleep_of_isStream {e : Event} (h : Event.isStream e = true) (d : Int) :
    e ≠ Event.sleep d := by
  rintro rfl
  simp [Event.isStream, Event.isData] at h

/-- No attempt that a fault unwinds sleeps: between its dial and the dial of
the next attempt there is no backoff, whatever the fault was. -/
theorem faulted_attempt_never_sleeps (unmarshal : List UInt8 → Option InterfaceState)
    (sw : ResolvedSwitch) (w : World) (s : AttemptScript)
    (hp : (attemptBody unmarshal sw w s).2.1 = BodyExit.panicked) :
    ∃ delta, (attempt unmarshal sw w s).1.trace = w.trace ++ delta ∧
      ∀ d, Event.sleep d ∉ delta := by
  cases hc : s.connect with
  | dialError =>
    obtain ⟨d, -, hd⟩ := backoffSleep_eq
      (((w.emit [Event.dial]).IncError sw.Address "connect").UpdateConnectStatus
        sw.Address false) s.draw
    simp [attemptBody, connect, NewClient, hc, withDeferred, hd] at hp
  | loginError =>
    obtain ⟨d, -, hd⟩ := backoffSleep_eq
      (((w.emit [Event.dial, Event.login, Event.connClose]).IncError sw.Address
        "connect").UpdateConnectStatus sw.Address false) s.draw
    simp [attemptBody, connect, NewClient, hc, withDeferred, hd] at hp
  | fault =>
    refine ⟨[Event.dial, Event.incError "panic", Event.subscribeStatus false], ?_, by simp⟩
    rw [(attempt_connect_fault unmarshal sw w s hc).2]
    show (recoverPanic (w.emit [Event.dial]) sw.Address).trace = _
    rw [(recoverPanic_effect _ _).2.2.1]
    simp [World.emit]
  | ok token =>
    obtain ⟨wq, ⟨-, -, -, delta, ht, hstream⟩, h⟩ :=
      attempt_connect_ok unmarshal sw w s token hc
    rw [(connect_ok_world sw w token).2] at ht
    rcases h with ⟨hb, -⟩ | ⟨-, ha⟩ | ⟨d, -, -, hb, -⟩
    · rw [hb] at hp
      cases hp
    · refine ⟨[Event.dial, Event.login, Event.connectStatus true] ++ delta ++
        [Event.logout token, Event.connClose] ++
        [Event.incError "panic", Event.subscribeStatus false], ?_, ?_⟩
      · rw [ha]
        show (recoverPanic (GrpcSession.Close wq ⟨token⟩) sw.Address).trace = _
        rw [(recoverPanic_effect _ _).2.2.1]
        simp [GrpcSession.Close, ht]
      · intro d hm
        simp only [List.mem_append, List.mem_cons, List.mem_singleton, List.not_mem_nil,
          or_false] at hm
        rcases hm with (((hm | hm | hm) | hm) | hm | hm) | hm | hm
        all_goals first
          | exact Event.ne_sleep_of_isStream (hstream _ hm) d rfl
          | cases hm
    · rw [hb] at hp
      cases hp

/-- C4, the code at the failing input. The first attempt of the example device
faults in `Recv`; the recovery function counts the panic and sets the
subscribe status, and the very next action is the dial of the second attempt:
no sleep lies between the two connect attempts. The second attempt, which
fails at connect, does sleep before it ends. -/
theorem fault_skips_backoff :
    (Subscribe exampleUnmarshal exampleSwitch exampleWorld
      [streamingScript "token-1" [RecvScript.fault] 0,
        ⟨.dialError, .ok, .ok, [], 7⟩]).1.trace =
      [Event.dial, Event.login, Event.connectStatus true, Event.openStream, Event.send,
        Event.subscribeStatus true, Event.recv, Event.logout "token-1", Event.connClose,
        Event.incError "panic", Event.subscribeStatus false,
        Event.dial, Event.incError "connect", Event.connectStatus false,
        Event.sleep 5000000007] := by
  decide

/-! ## Repeated connect failures -/

/-- A run of attempts that all fail at connect, from any world. -/
theorem connect_failures_run (unmarshal : List UInt8 → Option InterfaceState)
    (sw : ResolvedSwitch) (scripts : List AttemptScript) (w : World)
    (hfail : ∀ s ∈ scripts, s.connect = .dialError ∨ s.connect = .loginError) :
    (Subscribe unmarshal sw w scripts).2 = true ∧
    errorCount (Subscribe unmarshal sw w scripts).1.metrics sw.Address "connect" =
      errorCount w.metrics sw.Address "connect" + scripts.length ∧
    subscribeGauge (Subscribe unmarshal sw w scripts).1.metrics sw.Address =
      subscribeGauge w.metrics sw.Address ∧
    (scripts ≠ [] →
      connectGauge (Subscribe unmarshal sw w scripts).1.metrics sw.Address = some 0) ∧
    ∃ ext, (Subscribe unmarshal sw w scripts).1.trace = w.trace ++ ext ∧
      ∀ e ∈ ext, Event.isConnectFailure e = true := by
  induction scripts generalizing w with
  | nil => exact ⟨rfl, rfl, rfl, fun h => absurd rfl h, [], by simp [Subscribe], by simp⟩
  | cons s rest ih =>
    obtain ⟨pre, d, hpre, -, ha⟩ :=
      attempt_connect_error unmarshal sw w s (hfail s (List.mem_cons_self _ _))
    obtain ⟨i1, i2, i3, i4, ext, i5, i6⟩ :=
      ih ((((w.emit pre).IncError sw.Address "connect").UpdateConnectStatus
        sw.Address false).emit [Event.sleep d])
        (fun x hx => hfail x (List.mem_cons_of_mem _ hx))
    have hsub : Subscribe unmarshal sw w (s :: rest) =
        Subscribe unmarshal sw ((((w.emit pre).IncError sw.Address "connect").UpdateConnectStatus
          sw.Address false).emit [Event.sleep d]) rest := by
      simp only [Subscribe, ha]
    rw [hsub]
    refine ⟨i1, ?_, ?_, ?_, ?_⟩
    · rw [i2]
      have : errorCount ((((w.emit pre).IncError sw.Address "connect").UpdateConnectStatus
          sw.Address false).emit [Event.sleep d]).metrics sw.Address "connect" =
          errorCount w.metrics sw.Address "connect" + 1 :=
        errorCount_IncError w.metrics sw.Address "connect"
      rw [this, List.length_cons]
      omega
    · rw [i3]
      rfl
    · intro _
      cases rest with
      | nil => exact connectGauge_UpdateConnectStatus _ sw.Address false
      | cons r rs => exact i4 (by simp)
    · refine ⟨pre ++ [Event.incError "connect", Event.connectStatus false, Event.sleep d] ++ ext,
        ?_, ?_⟩
      · rw [i5]
        simp [World.emit, World.IncError, World.UpdateConnectStatus]
      · intro e he
        simp only [List.mem_append, List.mem_cons, List.mem_singleton, List.not_mem_nil,
          or_false] at he
        rcases he with (he | rfl | rfl | rfl) | he
        · rcases hpre with rfl | rfl
          · simp only [List.mem_singleton] at he
            subst he
            rfl
          · simp only [List.mem_cons, List.mem_singleton, List.not_mem_nil, or_false] at he
            rcases he with rfl | rfl | rfl <;> rfl
        · rfl
        · rfl
        · rfl
        · exact i6 e he

/-- C7. The first attempts of a device all fail at connect, starting from a
world with no recorded activity. Every one of them ends, and after them the
"connect" error counter equals their number; after each of them (after the
first `k`, for every `k ≥ 1`) the connect-status gauge is 0 and the counter is
`k`; the subscribe-status gauge has no value at any of these points, and
neither status has ever been set to 1. -/
theorem connect_failures_counted (unmarshal : List UInt8 → Option InterfaceState)
    (sw : ResolvedSwitch) (w : World) (scripts : List AttemptScript)
    (hw : noActivity w)
    (hfail : ∀ s ∈ scripts, s.connect = .dialError ∨ s.connect = .loginError) :
    (Subscribe unmarshal sw w scripts).2 = true ∧
    errorCount (Subscribe unmarshal sw w scripts).1.metrics sw.Address "connect" =
      scripts.length ∧
    (∀ k, 1 ≤ k → k ≤ scripts.length →
      connectGauge (Subscribe unmarshal sw w (scripts.take k)).1.metrics sw.Address = some 0 ∧
      errorCount (Subscribe unmarshal sw w (scripts.take k)).1.metrics sw.Address "connect" =
        k) ∧
    (∀ k, subscribeGauge (Subscribe unmarshal sw w (scripts.take k)).1.metrics sw.Address =
      none) ∧
    Event.subscribeStatus true ∉ (Subscribe unmarshal sw w scripts).1.trace ∧
    Event.connectStatus true ∉ (Subscribe unmarshal sw w scripts).1.trace := by
  obtain ⟨-, hsub0, hcount0, -, htrace0⟩ := hw
  have hzero : errorCount w.metrics sw.Address "connect" = 0 := by
    simp [errorCount, MetricVec.value, hcount0]
  have hnone : subscribeGauge w.metrics sw.Address = none := by
    simp [subscribeGauge, MetricVec.value, hsub0]
  have htake : ∀ k, ∀ s ∈ scripts.take k, s.connect = .dialError ∨ s.connect = .loginError :=
    fun k s hs => hfail s (List.mem_of_mem_take hs)
  obtain ⟨h1, h2, -, -, ext, h5, h6⟩ := connect_failures_run unmarshal sw scripts w hfail
  refine ⟨h1, by rw [h2, hzero]; omega, ?_, ?_, ?_, ?_⟩
  · intro k hk1 hk2
    obtain ⟨-, t2, -, t4, -⟩ := connect_failures_run unmarshal sw (scripts.take k) w (htake k)
    have hlen : (scripts.take k).length = k := by
      rw [List.length_take]
      omega
    refine ⟨t4 ?_, by rw [t2, hzero, hlen]; omega⟩
    intro hnil
    rw [hnil] at hlen
    simp at hlen
    omega
  · intro k
    obtain ⟨-, -, t3, -⟩ := connect_failures_run unmarshal sw (scripts.take k) w (htake k)
    rw [t3, hnone]
  · rw [h5, htrace0]
    intro hm
    have := h6 _ (by simpa using hm)
    revert this
    decide
  · rw [h5, htrace0]
    intro hm
    have := h6 _ (by simpa using hm)
    revert this
    decide

/-- C7, witness: three connect failures of the example device (dial, login,
dial), the scenario of the specification. -/
theorem connect_failures_counted_witness :
    (noActivity exampleWorld ∧
      ∀ s ∈ [(⟨.dialError, .ok, .ok, [], 1⟩ : AttemptScript), ⟨.loginError, .ok, .ok, [], 2⟩,
          ⟨.dialError, .ok, .ok, [], 3⟩],
        s.connect = .dialError ∨ s.connect = .loginError) ∧
    ((Subscribe exampleUnmarshal exampleSwitch exampleWorld
        [⟨.dialError, .ok, .ok, [], 1⟩, ⟨.loginError, .ok, .ok, [], 2⟩,
          ⟨.dialError, .ok, .ok, [], 3⟩]).2 = true ∧
    errorCount (Subscribe exampleUnmarshal exampleSwitch exampleWorld
        [⟨.dialError, .ok, .ok, [], 1⟩, ⟨.loginError, .ok, .ok, [], 2⟩,
          ⟨.dialError, .ok, .ok, [], 3⟩]).1.metrics exampleSwitch.Address "connect" =
      [(⟨.dialError, .ok, .ok, [], 1⟩ : AttemptScript), ⟨.loginError, .ok, .ok, [], 2⟩,
          ⟨.dialError, .ok, .ok, [], 3⟩].length ∧
    (∀ k, 1 ≤ k →
      k ≤ [(⟨.dialError, .ok, .ok, [], 1⟩ : AttemptScript), ⟨.loginError, .ok, .ok, [], 2⟩,
          ⟨.dialError, .ok, .ok, [], 3⟩].length →
      connectGauge (Subscribe exampleUnmarshal exampleSwitch exampleWorld
        ([(⟨.dialError, .ok, .ok, [], 1⟩ : AttemptScript), ⟨.loginError, .ok, .ok, [], 2⟩,
          ⟨.dialError, .ok, .ok, [], 3⟩].take k)).1.metrics exampleSwitch.Address = some 0 ∧
      errorCount (Subscribe exampleUnmarshal exampleSwitch exampleWorld
        ([(⟨.dialError, .ok, .ok, [], 1⟩ : AttemptScript), ⟨.loginError, .ok, .ok, [], 2⟩,
          ⟨.dialError, .ok, .ok, [], 3⟩].take k)).1.metrics exampleSwitch.Address "connect" =
        k) ∧
    (∀ k, subscribeGauge (Subscribe exampleUnmarshal exampleSwitch exampleWorld
        ([(⟨.dialError, .ok, .ok, [], 1⟩ : AttemptScript), ⟨.loginError, .ok, .ok, [], 2⟩,
          ⟨.dialError, .ok, .ok, [], 3⟩].take k)).1.metrics exampleSwitch.Address = none) ∧
    Event.subscribeStatus true ∉ (Subscribe exampleUnmarshal exampleSwitch exampleWorld
        [⟨.dialError, .ok, .ok, [], 1⟩, ⟨.loginError, .ok, .ok, [], 2⟩,
          ⟨.dialError, .ok, .ok, [], 3⟩]).1.trace ∧
    Event.connectStatus true ∉ (Subscribe exampleUnmarshal exampleSwitch exampleWorld
        [⟨.dialError, .ok, .ok, [], 1⟩, ⟨.loginError, .ok, .ok, [], 2⟩,
          ⟨.dialError, .ok, .ok, [], 3⟩]).1.trace) :=
  ⟨⟨⟨rfl, rfl, rfl, rfl, rfl⟩, by decide⟩,
    connect_failures_counted exampleUnmarshal exampleSwitch exampleWorld
      [⟨.dialError, .ok, .ok, [], 1⟩, ⟨.loginError, .ok, .ok, [], 2⟩,
        ⟨.dialError, .ok, .ok, [], 3⟩]
      ⟨rfl, rfl, rfl, rfl, rfl⟩ (by decide)⟩

/-! ## The state store -/

theorem storedState_processTask (m : Metrics) (task : updateTask) (device interfaceName : String) :
    storedState (processTask m task) device interfaceName =
      if task.device = device ∧ task.state.Name = interfaceName then some task.state
      else storedState m device interfaceName := by
  unfold storedState
  simp only [processTask]
  cases h : GoMap.lookup m.states task.device with
  | none =>
    simp only [GoMap.lookup_set, if_true, Option.getD_some]
    by_cases hd : task.device = device
    · subst hd
      by_cases hi : task.state.Name = interfaceName
      · simp [hi, GoMap.lookup_set]
      · simp [hi, h, GoMap.lookup_set, GoMap.lookup]
    · simp [hd]
  | some interfaces =>
    simp only [h, GoMap.lookup_set, Option.getD_some]
    by_cases hd : task.device = device
    · subst hd
      by_cases hi : task.state.Name = interfaceName
      · simp [hi, GoMap.lookup_set]
      · simp [hi, h, GoMap.lookup_set]
    · simp [hd]

theorem processTask_updates (m : Metrics) (task : updateTask) :
    (processTask m task).updates = m.updates := rfl

theorem foldl_processTask_updates (tasks : List updateTask) (m : Metrics) :
    (tasks.foldl processTask m).updates = m.updates := by
  induction tasks generalizing m with
  | nil => rfl
  | cons t ts ih => rw [List.foldl_cons, ih, processTask_updates]

theorem processUpdates_updates (m : Metrics) : (processUpdates m).updates = [] := by
  unfold processUpdates
  rw [foldl_processTask_updates]

/-- A task sent last is applied last, after everything queued before it. -/
theorem processUpdates_Update (m : Metrics) (device : String) (state : InterfaceState) :
    processUpdates (Update m device state) = processTask (processUpdates m) ⟨device, state⟩ := by
  simp only [processUpdates, Update, List.foldl_append, List.foldl_cons, List.foldl_nil]

/-- C11. For every device `d` and every two interface states `s1`, `s2` with
the same interface name: once the worker has applied, in queue order,
everything queued before and then `Update(d, s1)` and `Update(d, s2)`, the
queue is empty, the stored state of `(d, that interface)` is `s2` (it was `s1`
after the first of the two alone), and the stored state of every other
(device, interface) pair is what it was before the two updates were
applied. -/
theorem last_write_wins (m : Metrics) (d : String) (s1 s2 : InterfaceState)
    (hname : s1.Name = s2.Name) :
    processUpdates (Update (Update m d s1) d s2) =
      processTask (processTask (processUpdates m) ⟨d, s1⟩) ⟨d, s2⟩ ∧
    (processUpdates (Update (Update m d s1) d s2)).updates = [] ∧
    storedState (processUpdates (Update m d s1)) d s2.Name = some s1 ∧
    storedState (processUpdates (Update (Update m d s1) d s2)) d s2.Name = some s2 ∧
    ∀ device interfaceName, ¬ (device = d ∧ interfaceName = s2.Name) →
      storedState (processUpdates (Update (Update m d s1) d s2)) device interfaceName =
        storedState (processUpdates m) device interfaceName := by
  have h2 : processUpdates (Update (Update m d s1) d s2) =
      processTask (processTask (processUpdates m) ⟨d, s1⟩) ⟨d, s2⟩ := by
    rw [processUpdates_Update, processUpdates_Update]
  refine ⟨h2, processUpdates_updates _, ?_, ?_, ?_⟩
  · rw [processUpdates_Update, storedState_processTask]
    simp [hname]
  · rw [h2, storedState_processTask]
    simp
  · intro device interfaceName hne
    rw [h2, storedState_processTask, storedState_processTask]
    have hne2 : ¬ (d = device ∧ s2.Name = interfaceName) :=
      fun h => hne ⟨h.1.symm, h.2.symm⟩
    have hne1 : ¬ (d = device ∧ s1.Name = interfaceName) := by
      rw [hname]
      exact hne2
    simp only [hne1, hne2, if_false]

/-- C11, witness: the example device reports `eth1` as UP/DOWN and then as
DOWN/DOWN. -/
theorem last_write_wins_witness :
    (⟨"eth1", "UP", "DOWN"⟩ : InterfaceState).Name =
        (⟨"eth1", "DOWN", "DOWN"⟩ : InterfaceState).Name ∧
    (processUpdates (Update (Update exampleWorld.metrics "10.0.0.1" ⟨"eth1", "UP", "DOWN"⟩)
        "10.0.0.1" ⟨"eth1", "DOWN", "DOWN"⟩) =
      processTask (processTask (processUpdates exampleWorld.metrics)
        ⟨"10.0.0.1", ⟨"eth1", "UP", "DOWN"⟩⟩) ⟨"10.0.0.1", ⟨"eth1", "DOWN", "DOWN"⟩⟩ ∧
    (processUpdates (Update (Update exampleWorld.metrics "10.0.0.1" ⟨"eth1", "UP", "DOWN"⟩)
        "10.0.0.1" ⟨"eth1", "DOWN", "DOWN"⟩)).updates = [] ∧
    storedState (processUpdates (Update exampleWorld.metrics "10.0.0.1"
        ⟨"eth1", "UP", "DOWN"⟩)) "10.0.0.1"
        (⟨"eth1", "DOWN", "DOWN"⟩ : InterfaceState).Name = some ⟨"eth1", "UP", "DOWN"⟩ ∧
    storedState (processUpdates (Update (Update exampleWorld.metrics "10.0.0.1"
        ⟨"eth1", "UP", "DOWN"⟩) "10.0.0.1" ⟨"eth1", "DOWN", "DOWN"⟩)) "10.0.0.1"
        (⟨"eth1", "DOWN", "DOWN"⟩ : InterfaceState).Name = some ⟨"eth1", "DOWN", "DOWN"⟩ ∧
    ∀ device interfaceName,
      ¬ (device = "10.0.0.1" ∧
        interfaceName = (⟨"eth1", "DOWN", "DOWN"⟩ : InterfaceState).Name) →
      storedState (processUpdates (Update (Update exampleWorld.metrics "10.0.0.1"
          ⟨"eth1", "UP", "DOWN"⟩) "10.0.0.1" ⟨"eth1", "DOWN", "DOWN"⟩)) device interfaceName =
        storedState (processUpdates exampleWorld.metrics) device interfaceName) :=
  ⟨rfl, last_write_wins exampleWorld.metrics "10.0.0.1" ⟨"eth1", "UP", "DOWN"⟩
    ⟨"eth1", "DOWN", "DOWN"⟩ rfl⟩

end H3CExporter
